import Mathlib

/-!
Verification of the HDI_Italy standardization core.

This file shallowly embeds the three source modules of the repository:
`aliases_helper.py` (reference data), `standardize_italy_admin_names.py`
(normalization, alias index, tiered resolver) and `completeness.py`
(coverage functions), and proves the frozen claims about them.

Strings are modelled as Lean `String`/`List Char`.  Python's `str.lower`
and the NFKD-based `strip_accents` are modelled as per-character
transliteration tables covering the character repertoire of the
reference data and of all claim inputs (ASCII letters plus the accented
letters appearing in the canonical names); outside that repertoire both
are the identity.  `difflib.get_close_matches` is modelled faithfully
(real_quick_ratio / quick_ratio / ratio chain, the SequenceMatcher
longest-match dynamic program with no junk, and the n = 1 selection by
largest (ratio, string) pair); the float comparisons `ratio >= 0.90`
are modelled as exact rational comparisons `20*M >= 9*T`, which agree
with the double-precision comparisons for all string lengths occurring
here because the involved rationals are separated from 9/10 by far more
than one ulp.
-/

set_option maxRecDepth 20000

/-- Python's whitespace class over ASCII: `str.strip`/`str.isspace` and
the regex `\s` agree there on exactly TAB through CR, the separator
control characters U+001C–U+001F, and the space.  All members have code
points at most 32; the guard only speeds up kernel evaluation. -/
def isPyWS (c : Char) : Bool :=
  decide (c.toNat ≤ 32) &&
    (c == ' ' || c == '\t' || c == '\n' || c == '\r' || c == '\x0B' || c == '\x0C' ||
      c == '\x1C' || c == '\x1D' || c == '\x1E' || c == '\x1F')

/-- The apostrophe variants replaced by a space in `base_normalize`
(the regex character class holding the ASCII apostrophe, U+2019 and the
backquote U+0060). -/
def isApos (c : Char) : Bool :=
  c == '\'' || c == '’' || c == '\x60'

/-- The hyphen/dash variants replaced by a space in `base_normalize`. -/
def isDash (c : Char) : Bool :=
  c == '-' || c == '–' || c == '—'

/-- ASCII lower-casing table modelling Python `str.lower` on the repertoire
used by the repository. -/
def lowerTable : List (Char × Char) :=
  [('A','a'),('B','b'),('C','c'),('D','d'),('E','e'),('F','f'),('G','g'),
   ('H','h'),('I','i'),('J','j'),('K','k'),('L','l'),('M','m'),('N','n'),
   ('O','o'),('P','p'),('Q','q'),('R','r'),('S','s'),('T','t'),('U','u'),
   ('V','v'),('W','w'),('X','x'),('Y','y'),('Z','z')]

/-- Plain first-match association-list lookup for the character tables. -/
def tlook : List (Char × Char) → Char → Option Char
  | [], _ => none
  | p :: ps, c => if p.1 = c then some p.2 else tlook ps c

/-- Python `str.lower` on the ASCII range: only code points 65–90 are
affected (the range guard skips the table scan for all other characters,
without changing the function's value anywhere). -/
def lowerChar (c : Char) : Char :=
  if 65 ≤ c.toNat ∧ c.toNat ≤ 90 then (tlook lowerTable c).getD c else c

/-- Transliteration table modelling `strip_accents` (NFKD decomposition
followed by dropping combining marks) on the accented letters of the
reference data and claim inputs. -/
def accentTable : List (Char × Char) :=
  [('à','a'),('á','a'),('è','e'),('é','e'),('ì','i'),('í','i'),('ò','o'),
   ('ó','o'),('ù','u'),('ú','u'),('ü','u'),('ö','o'),('ä','a'),('ë','e'),
   ('ï','i'),('î','i'),('ô','o'),('û','u'),('ç','c')]

/-- NFKD on ASCII is the identity, so only non-ASCII characters consult
the table (the guard again only speeds up kernel evaluation). -/
def deaccentChar (c : Char) : Char :=
  if c.toNat < 128 then c else (tlook accentTable c).getD c

/-- `strip_accents` from the source, as a character map (see module comment). -/
def strip_accents (l : List Char) : List Char :=
  l.map deaccentChar

/-- The character repertoire on which this embedding of `str.lower`, the
NFKD-based `strip_accents` and the whitespace classes agrees with Python
character for character: all of ASCII, the accented letters of
`accentTable`, the typographic apostrophe U+2019 and the en/em dashes.
NFKD compatibility decompositions of characters outside this set (for
example U+2116 decomposing to the two letters "No") are not modelled. -/
def modeledChar (c : Char) : Bool :=
  decide (c.toNat < 128) || (tlook accentTable c).isSome ||
    c == '’' || c == '–' || c == '—'

/-- Python `str.strip()`: drop leading and trailing whitespace. -/
def pyStrip (l : List Char) : List Char :=
  ((l.dropWhile isPyWS).reverse.dropWhile isPyWS).reverse

/-- `re.sub(r"\s+", " ", s)`: replace each maximal whitespace run by one space. -/
def collapseWS : List Char → List Char
  | [] => []
  | [c] => if isPyWS c then [' '] else [c]
  | c :: d :: rest =>
    if isPyWS c then
      if isPyWS d then collapseWS (d :: rest)
      else ' ' :: collapseWS (d :: rest)
    else c :: collapseWS (d :: rest)

def pfxProvincia : List Char := "provincia di".data
def pfxProv : List Char := "prov di".data
def pfxCitta : List Char := "citta metropolitana di".data

/-- One alternative of the anchored regex `^(P)\s+`: if `l` starts with `p`
followed by at least one whitespace character, drop `p` and the whole
whitespace run (greedy `\s+`). -/
def afterPfx (p l : List Char) : Option (List Char) :=
  if l.take p.length = p then
    match l.drop p.length with
    | [] => none
    | c :: cs => if isPyWS c then some ((c :: cs).dropWhile isPyWS) else none
  else none

/-- `re.sub(r"^(provincia di|prov di|citta metropolitana di)\s+", "", s)`:
the regex is anchored, so at most one leading prefix is removed. -/
def stripLeadPfx (l : List Char) : List Char :=
  match afterPfx pfxProvincia l with
  | some r => r
  | none =>
    match afterPfx pfxProv l with
    | some r => r
    | none =>
      match afterPfx pfxCitta l with
      | some r => r
      | none => l

/-- `base_normalize` on character lists, stage by stage in source order:
lower, strip, strip_accents, apostrophes to space, dashes to space,
collapse whitespace, strip one leading legal-entity prefix, strip. -/
def normTok (l : List Char) : List Char :=
  pyStrip (stripLeadPfx (collapseWS
    (((strip_accents (pyStrip (l.map lowerChar))).map
        (fun c => if isApos c then ' ' else c)).map
      (fun c => if isDash c then ' ' else c))))

/-- `base_normalize` from the source. -/
def base_normalize (s : String) : String :=
  String.mk (normTok s.data)

/-! ### Reference data (`aliases_helper.py`) -/

def REGIONS : List String :=
  ["Abruzzo","Basilicata","Calabria","Campania","Emilia-Romagna","Friuli-Venezia Giulia",
   "Lazio","Liguria","Lombardia","Marche","Molise","Piemonte","Puglia","Sardegna",
   "Sicilia","Toscana","Trentino-Alto Adige/Südtirol","Umbria","Valle d'Aosta/Vallée d'Aoste","Veneto"]

def REGION_TO_PROVINCES : List (String × List String) :=
  [("Abruzzo", ["L'Aquila","Teramo","Pescara","Chieti"]),
   ("Basilicata", ["Potenza","Matera"]),
   ("Calabria", ["Catanzaro","Cosenza","Crotone","Reggio Calabria","Vibo Valentia"]),
   ("Campania", ["Avellino","Benevento","Caserta","Napoli","Salerno"]),
   ("Emilia-Romagna", ["Bologna","Ferrara","Forlì-Cesena","Modena","Parma","Piacenza","Ravenna","Reggio nell'Emilia","Rimini"]),
   ("Friuli-Venezia Giulia", ["Gorizia","Pordenone","Trieste","Udine"]),
   ("Lazio", ["Frosinone","Latina","Rieti","Roma","Viterbo"]),
   ("Liguria", ["Genova","Imperia","La Spezia","Savona"]),
   ("Lombardia", ["Bergamo","Brescia","Como","Cremona","Lecco","Lodi","Mantova","Milano","Monza e della Brianza","Pavia","Sondrio","Varese"]),
   ("Marche", ["Ancona","Ascoli Piceno","Fermo","Macerata","Pesaro e Urbino"]),
   ("Molise", ["Campobasso","Isernia"]),
   ("Piemonte", ["Alessandria","Asti","Biella","Cuneo","Novara","Torino","Verbano-Cusio-Ossola","Vercelli"]),
   ("Puglia", ["Bari","Barletta-Andria-Trani","Brindisi","Foggia","Lecce","Taranto"]),
   ("Sardegna", ["Cagliari","Nuoro","Oristano","Sassari","Sud Sardegna"]),
   ("Sicilia", ["Agrigento","Caltanissetta","Catania","Enna","Messina","Palermo","Ragusa","Siracusa","Trapani"]),
   ("Toscana", ["Arezzo","Firenze","Grosseto","Livorno","Lucca","Massa-Carrara","Pisa","Pistoia","Prato","Siena"]),
   ("Trentino-Alto Adige/Südtirol", ["Bolzano/Bozen","Trento"]),
   ("Umbria", ["Perugia","Terni"]),
   ("Valle d'Aosta/Vallée d'Aoste", ["Aosta"]),
   ("Veneto", ["Belluno","Padova","Rovigo","Treviso","Venezia","Verona","Vicenza"])]

/-- `PROVINCE_TO_REGION`, derived exactly as the dict comprehension does. -/
def PROVINCE_TO_REGION : List (String × String) :=
  REGION_TO_PROVINCES.flatMap (fun rp => rp.2.map (fun p => (p, rp.1)))

def MACRO_TO_REGIONS : List (String × List String) :=
  [("Nord-ovest", ["Piemonte", "Valle d'Aosta/Vallée d'Aoste", "Liguria", "Lombardia"]),
   ("Nord-est",   ["Trentino-Alto Adige/Südtirol", "Veneto", "Friuli-Venezia Giulia", "Emilia-Romagna"]),
   ("Centro",     ["Toscana", "Umbria", "Marche", "Lazio"]),
   ("Sud",        ["Abruzzo", "Molise", "Campania", "Puglia", "Basilicata", "Calabria"]),
   ("Isole",      ["Sicilia", "Sardegna"])]

def REGION_TO_MACRO : List (String × String) :=
  MACRO_TO_REGIONS.flatMap (fun mr => mr.2.map (fun r => (r, mr.1)))

def METRO_CITIES : List String :=
  ["Torino","Milano","Venezia","Genova","Bologna","Firenze","Roma","Napoli","Bari","Reggio Calabria",
   "Cagliari","Catania","Messina","Palermo"]

def CANONICAL_TO_ALIASES : List (String × List String) :=
  [("Reggio nell'Emilia", ["reggio emilia"]),
   ("Reggio Calabria", ["reggio di calabria"]),
   ("Forlì-Cesena", ["forli cesena","forli-cesena","forlì cesena"]),
   ("La Spezia", ["spezia"]),
   ("Massa-Carrara", ["massa carrara","massa-carrara"]),
   ("Monza e della Brianza", ["monza e brianza","monza brianza"]),
   ("Bolzano/Bozen", ["bolzano","bozen","bolzano-bozen","bozen-bolzano"]),
   ("Barletta-Andria-Trani", ["barletta andria trani","bat","b.a.t."]),
   ("Pesaro e Urbino", ["pesaro urbino"]),
   ("Valle d'Aosta/Vallée d'Aoste", ["valle d aosta","valle d'aosta","valle d’aosta","vallee daoste"]),
   ("Friuli-Venezia Giulia", ["friuli venezia giulia"]),
   ("Trentino-Alto Adige/Südtirol", ["trentino alto adige","trentino-alto adige"])]

/-! ### Dictionary model

A Python `dict` built by repeated assignment is modelled as the list of
assignments in order; `dget` returns the value of the latest binding of a
key (assignment overwrites), `dkeys` lists the keys in first-insertion
order (a Python dict keeps a key's original position when its value is
overwritten). -/

def dget : List (String × String) → String → Option String
  | [], _ => none
  | p :: ps, k =>
    match dget ps k with
    | some v => some v
    | none => if p.1 = k then some p.2 else none

def dkeys : List (String × String) → List String
  | [] => []
  | p :: ps => p.1 :: (dkeys ps).filter (fun k => k ≠ p.1)

/-! ### Alias map construction (`build_alias_map`) -/

def ALL_REGIONS : List String := REGION_TO_PROVINCES.map Prod.fst

/-- Code-point lexicographic order on character lists: exactly Python's
string comparison (and Lean's `String.lt`, stated in a form the kernel
evaluates). -/
def lexLt : List Char → List Char → Bool
  | [], [] => false
  | [], _ :: _ => true
  | _ :: _, [] => false
  | a :: as, b :: bs =>
    if a < b then true else if b < a then false else lexLt as bs

def pyStrLt (a b : String) : Bool := lexLt a.data b.data

/-- `sorted({p for ps in REGION_TO_PROVINCES.values() for p in ps})`:
set of all provinces, sorted by code points as Python `sorted` does. -/
def sinsert (x : String) : List String → List String
  | [] => [x]
  | y :: ys => if pyStrLt x y then x :: y :: ys else y :: sinsert x ys

def ssort (l : List String) : List String := l.foldr sinsert []

def ALL_PROVINCES : List String :=
  ssort ((REGION_TO_PROVINCES.flatMap Prod.snd).dedup)

def MACROS : List String :=
  ssort (MACRO_TO_REGIONS.map Prod.fst)

/-- `auto_variants_for_province` (the Python set is modelled as a list;
all variants map to the same canonical name, so the set's iteration
order cannot matter). -/
def auto_variants_for_province (name : String) : List String :=
  let b := base_normalize name
  [b, "provincia di " ++ b, "prov di " ++ b] ++
    (if name ∈ METRO_CITIES then ["citta metropolitana di " ++ b] else [])

/-- `build_alias_map`: the dict assignments in source order
(canonical self-keys for regions, provinces, macros; auto variants for
provinces; manual alias groups). -/
def build_alias_map : List (String × String) :=
  (ALL_REGIONS.map (fun r => (base_normalize r, r)))
  ++ (ALL_PROVINCES.map (fun p => (base_normalize p, p)))
  ++ (MACROS.map (fun m => (base_normalize m, m)))
  ++ (ALL_PROVINCES.flatMap (fun p =>
        (auto_variants_for_province p).map (fun a => (base_normalize a, p))))
  ++ (CANONICAL_TO_ALIASES.flatMap (fun cv =>
        cv.2.map (fun a => (base_normalize a, cv.1))))

def ALIASES : List (String × String) := build_alias_map

def NORM_PROV : List (String × String) :=
  PROVINCE_TO_REGION.map (fun pr => (base_normalize pr.1, pr.1))

def NORM_REG : List (String × String) :=
  REGIONS.map (fun r => (base_normalize r, r))

def NORM_MAC : List (String × String) :=
  MACROS.map (fun m => (base_normalize m, m))

def NORM_ALIAS : List (String × String) := ALIASES

/-! ### `difflib.get_close_matches` model (no junk: all inputs are far
shorter than the 200-character autojunk limit) -/

/-- Positions `blo <= j < bhi` of character `c` in `b` (the `b2j` lists). -/
def b2jGet (b : List Char) (c : Char) (blo bhi : Nat) : List Nat :=
  (List.range b.length).filter
    (fun j => decide (blo ≤ j) && decide (j < bhi) && (b.get? j == some c))

def alookupN : List (Nat × Nat) → Nat → Option Nat
  | [], _ => none
  | p :: ps, k => if p.1 = k then some p.2 else alookupN ps k

/-- One iteration (fixed `i`) of the `find_longest_match` dynamic program:
threads the `j2len` table and the best `(i, j, size)` triple. -/
def flmInner (a b : List Char) (blo bhi i : Nat)
    (st : List (Nat × Nat) × Nat × Nat × Nat) : List (Nat × Nat) × Nat × Nat × Nat :=
  (b2jGet b (a.getD i ' ') blo bhi).foldl
    (fun acc j =>
      let k := (if j = 0 then 0 else (alookupN st.1 (j - 1)).getD 0) + 1
      let nj := (j, k) :: acc.1
      if k > acc.2.2.2 then (nj, i + 1 - k, j + 1 - k, k)
      else (nj, acc.2.1, acc.2.2.1, acc.2.2.2))
    ([], st.2.1, st.2.2.1, st.2.2.2)

def flmScan (a b : List Char) (alo ahi blo bhi : Nat) : Nat × Nat × Nat :=
  let res := (List.range' alo (ahi - alo)).foldl
    (fun st i => flmInner a b blo bhi i st) ([], alo, blo, 0)
  (res.2.1, res.2.2.1, res.2.2.2)

/-- The left-extension loop of `find_longest_match` (with no junk it never
fires, because the dynamic program already found a maximal run, but it is
part of the source). -/
def extL (a b : List Char) (alo blo : Nat) : Nat → Nat × Nat × Nat → Nat × Nat × Nat
  | 0, st => st
  | fuel + 1, (bi, bj, bs) =>
    if decide (alo < bi) && decide (blo < bj) && (a.get? (bi - 1) == b.get? (bj - 1)) then
      extL a b alo blo fuel (bi - 1, bj - 1, bs + 1)
    else (bi, bj, bs)

/-- The right-extension loop of `find_longest_match`. -/
def extR (a b : List Char) (ahi bhi : Nat) : Nat → Nat × Nat × Nat → Nat × Nat × Nat
  | 0, st => st
  | fuel + 1, (bi, bj, bs) =>
    if decide (bi + bs < ahi) && decide (bj + bs < bhi) && (a.get? (bi + bs) == b.get? (bj + bs)) then
      extR a b ahi bhi fuel (bi, bj, bs + 1)
    else (bi, bj, bs)

def find_longest_match (a b : List Char) (alo ahi blo bhi : Nat) : Nat × Nat × Nat :=
  let s1 := flmScan a b alo ahi blo bhi
  let s2 := extL a b alo blo s1.1 s1
  extR a b ahi bhi (a.length + b.length + 1) s2

/-- Total size of the matching blocks of `get_matching_blocks` (the sum is
independent of the queue/sort/merge bookkeeping of the source).  The fuel
bounds the recursion depth; `a.length + b.length + 1` always suffices
because each recursive call strictly shrinks the `a`-interval. -/
def matchSum (a b : List Char) : Nat → Nat → Nat → Nat → Nat → Nat
  | 0, _, _, _, _ => 0
  | fuel + 1, alo, ahi, blo, bhi =>
    let r := find_longest_match a b alo ahi blo bhi
    if r.2.2 = 0 then 0
    else
      matchSum a b fuel alo r.1 blo r.2.1 + r.2.2 +
        matchSum a b fuel (r.1 + r.2.2) ahi (r.2.1 + r.2.2) bhi

def matchTotal (a b : List Char) : Nat :=
  matchSum a b (a.length + b.length + 1) 0 a.length 0 b.length

def countC (l : List Char) (c : Char) : Nat := l.count c

/-- `quick_ratio`'s match count: per character, the smaller multiplicity. -/
def quickMatches (a b : List Char) : Nat :=
  a.dedup.foldl (fun acc c => acc + min (countC a c) (countC b c)) 0

/-- The `real_quick_ratio >= 0.9 and quick_ratio >= 0.9 and ratio >= 0.9`
chain of `get_close_matches`, with `2*m/T >= 9/10` written as
`20*m >= 9*T` (exact for `T = 0` too: Python returns `1.0` there). -/
def passesCutoff (x token : List Char) : Bool :=
  let T := x.length + token.length
  decide (20 * min x.length token.length ≥ 9 * T)
  && decide (20 * quickMatches x token ≥ 9 * T)
  && decide (20 * matchTotal x token ≥ 9 * T)

/-- `(ratio, string)` pair `p` strictly beats `q` (the `heapq.nlargest`
tuple order; ratios `2*m/T` are compared by cross-multiplication). -/
def beatsScore (p q : Nat × Nat × String) : Bool :=
  let c1 := p.1 * q.2.1
  let c2 := q.1 * p.2.1
  decide (c1 > c2) || (decide (c1 = c2) && pyStrLt q.2.2 p.2.2)

/-- `match_from_candidates` = `get_close_matches(token, candidates, n=1,
cutoff=0.90)` followed by taking the single best hit if any: the largest
`(ratio, string)` pair among the candidates passing the cutoff chain,
first-seen winning exact ties. -/
def match_from_candidates (token : String) (candidates : List String) : Option String :=
  let scored := candidates.filterMap (fun x =>
    if passesCutoff x.data token.data then
      some (matchTotal x.data token.data, x.data.length + token.data.length, x)
    else none)
  let best := scored.foldl
    (fun acc p =>
      match acc with
      | none => some p
      | some q => if beatsScore p q then some p else some q)
    none
  best.map (fun p => p.2.2)

/-! ### The tiered resolver (`standardize_territory`) -/

structure TerritoryRecord where
  level : String
  province_std : Option String
  region_std : Option String
  macro_std : Option String
deriving DecidableEq, Repr

def unknownRecord : TerritoryRecord :=
  { level := "unknown", province_std := none, region_std := none, macro_std := none }

/-- Substring test (Python `"aosta" in tok`). -/
def subAt : List Char → List Char → Bool
  | [], _ => true
  | _ :: _, [] => false
  | n :: ns, h :: hs => n == h && subAt ns hs

def containsSub (needle : List Char) : List Char → Bool
  | [] => needle.isEmpty
  | h :: hs => subAt needle (h :: hs) || containsSub needle hs

/-- Tier 4, the last-resort Aosta heuristic, then the unknown fallback. -/
def tier4 (tok : String) : TerritoryRecord :=
  if containsSub "aosta".data tok.data then
    { level := "region", province_std := none,
      region_std := some "Valle d'Aosta/Vallée d'Aoste", macro_std := some "Nord-ovest" }
  else unknownRecord

/-- Tier 3, fuzzy close-match against the normalized province, region and
macro key sets, in that order. -/
def tier3 (tok : String) : TerritoryRecord :=
  match match_from_candidates tok (dkeys NORM_PROV) with
  | some m =>
    let p := dget NORM_PROV m
    { level := "province", province_std := p,
      region_std := p.bind (dget PROVINCE_TO_REGION),
      macro_std := (p.bind (dget PROVINCE_TO_REGION)).bind (dget REGION_TO_MACRO) }
  | none =>
    match match_from_candidates tok (dkeys NORM_REG) with
    | some m =>
      let r := dget NORM_REG m
      { level := "region", province_std := none, region_std := r,
        macro_std := r.bind (dget REGION_TO_MACRO) }
    | none =>
      match match_from_candidates tok (dkeys NORM_MAC) with
      | some m =>
        { level := "macro", province_std := none, region_std := none,
          macro_std := dget NORM_MAC m }
      | none => tier4 tok

/-- Tier 2, exact lookup of the normalized token in the normalized
province, region and macro key sets. -/
def tier2 (tok : String) : TerritoryRecord :=
  match dget NORM_PROV tok with
  | some p =>
    { level := "province", province_std := some p,
      region_std := dget PROVINCE_TO_REGION p,
      macro_std := (dget PROVINCE_TO_REGION p).bind (dget REGION_TO_MACRO) }
  | none =>
    match dget NORM_REG tok with
    | some r =>
      { level := "region", province_std := none, region_std := some r,
        macro_std := dget REGION_TO_MACRO r }
    | none =>
      match dget NORM_MAC tok with
      | some m =>
        { level := "macro", province_std := none, region_std := none,
          macro_std := some m }
      | none => tier3 tok

/-- Tier 1, the alias-index pass; an alias value in none of the three
universes falls through to tier 2, as the Python `if` chain does. -/
def tier1 (tok : String) : TerritoryRecord :=
  match dget NORM_ALIAS tok with
  | some canonical =>
    match dget PROVINCE_TO_REGION canonical with
    | some reg =>
      { level := "province", province_std := some canonical,
        region_std := some reg, macro_std := dget REGION_TO_MACRO reg }
    | none =>
      if canonical ∈ REGIONS then
        { level := "region", province_std := none, region_std := some canonical,
          macro_std := dget REGION_TO_MACRO canonical }
      else if canonical ∈ MACROS then
        { level := "macro", province_std := none, region_std := none,
          macro_std := some canonical }
      else tier2 tok
  | none => tier2 tok

/-- `standardize_territory` from the source (`None` input modelled as `none`). -/
def standardize_territory : Option String → TerritoryRecord
  | none => unknownRecord
  | some raw => tier1 (base_normalize raw)


/-! ### Kernel-checked literal images of the derived dictionaries

The alias index and the normalized key dictionaries are *defined* above
exactly as the source builds them (through `base_normalize`).  Evaluating
those definitions from scratch inside every claim proof is needlessly
expensive for the kernel, so the lists below restate their values as
literals, each proven equal to the derived definition by a single kernel
evaluation; claim proofs rewrite with these equations first.  Nothing is
trusted: the `_eq` theorems below are full evaluations of the
source-derived definitions. -/

def NORM_ALIAS_lit : List (String × String) :=
  [("abruzzo", "Abruzzo"),
 ("basilicata", "Basilicata"),
 ("calabria", "Calabria"),
 ("campania", "Campania"),
 ("emilia romagna", "Emilia-Romagna"),
 ("friuli venezia giulia", "Friuli-Venezia Giulia"),
 ("lazio", "Lazio"),
 ("liguria", "Liguria"),
 ("lombardia", "Lombardia"),
 ("marche", "Marche"),
 ("molise", "Molise"),
 ("piemonte", "Piemonte"),
 ("puglia", "Puglia"),
 ("sardegna", "Sardegna"),
 ("sicilia", "Sicilia"),
 ("toscana", "Toscana"),
 ("trentino alto adige/sudtirol", "Trentino-Alto Adige/Südtirol"),
 ("umbria", "Umbria"),
 ("valle d aosta/vallee d aoste", "Valle d'Aosta/Vallée d'Aoste"),
 ("veneto", "Veneto"),
 ("agrigento", "Agrigento"),
 ("alessandria", "Alessandria"),
 ("ancona", "Ancona"),
 ("aosta", "Aosta"),
 ("arezzo", "Arezzo"),
 ("ascoli piceno", "Ascoli Piceno"),
 ("asti", "Asti"),
 ("avellino", "Avellino"),
 ("bari", "Bari"),
 ("barletta andria trani", "Barletta-Andria-Trani"),
 ("belluno", "Belluno"),
 ("benevento", "Benevento"),
 ("bergamo", "Bergamo"),
 ("biella", "Biella"),
 ("bologna", "Bologna"),
 ("bolzano/bozen", "Bolzano/Bozen"),
 ("brescia", "Brescia"),
 ("brindisi", "Brindisi"),
 ("cagliari", "Cagliari"),
 ("caltanissetta", "Caltanissetta"),
 ("campobasso", "Campobasso"),
 ("caserta", "Caserta"),
 ("catania", "Catania"),
 ("catanzaro", "Catanzaro"),
 ("chieti", "Chieti"),
 ("como", "Como"),
 ("cosenza", "Cosenza"),
 ("cremona", "Cremona"),
 ("crotone", "Crotone"),
 ("cuneo", "Cuneo"),
 ("enna", "Enna"),
 ("fermo", "Fermo"),
 ("ferrara", "Ferrara"),
 ("firenze", "Firenze"),
 ("foggia", "Foggia"),
 ("forli cesena", "Forlì-Cesena"),
 ("frosinone", "Frosinone"),
 ("genova", "Genova"),
 ("gorizia", "Gorizia"),
 ("grosseto", "Grosseto"),
 ("imperia", "Imperia"),
 ("isernia", "Isernia"),
 ("l aquila", "L'Aquila"),
 ("la spezia", "La Spezia"),
 ("latina", "Latina"),
 ("lecce", "Lecce"),
 ("lecco", "Lecco"),
 ("livorno", "Livorno"),
 ("lodi", "Lodi"),
 ("lucca", "Lucca"),
 ("macerata", "Macerata"),
 ("mantova", "Mantova"),
 ("massa carrara", "Massa-Carrara"),
 ("matera", "Matera"),
 ("messina", "Messina"),
 ("milano", "Milano"),
 ("modena", "Modena"),
 ("monza e della brianza", "Monza e della Brianza"),
 ("napoli", "Napoli"),
 ("novara", "Novara"),
 ("nuoro", "Nuoro"),
 ("oristano", "Oristano"),
 ("padova", "Padova"),
 ("palermo", "Palermo"),
 ("parma", "Parma"),
 ("pavia", "Pavia"),
 ("perugia", "Perugia"),
 ("pesaro e urbino", "Pesaro e Urbino"),
 ("pescara", "Pescara"),
 ("piacenza", "Piacenza"),
 ("pisa", "Pisa"),
 ("pistoia", "Pistoia"),
 ("pordenone", "Pordenone"),
 ("potenza", "Potenza"),
 ("prato", "Prato"),
 ("ragusa", "Ragusa"),
 ("ravenna", "Ravenna"),
 ("reggio calabria", "Reggio Calabria"),
 ("reggio nell emilia", "Reggio nell'Emilia"),
 ("rieti", "Rieti"),
 ("rimini", "Rimini"),
 ("roma", "Roma"),
 ("rovigo", "Rovigo"),
 ("salerno", "Salerno"),
 ("sassari", "Sassari"),
 ("savona", "Savona"),
 ("siena", "Siena"),
 ("siracusa", "Siracusa"),
 ("sondrio", "Sondrio"),
 ("sud sardegna", "Sud Sardegna"),
 ("taranto", "Taranto"),
 ("teramo", "Teramo"),
 ("terni", "Terni"),
 ("torino", "Torino"),
 ("trapani", "Trapani"),
 ("trento", "Trento"),
 ("treviso", "Treviso"),
 ("trieste", "Trieste"),
 ("udine", "Udine"),
 ("varese", "Varese"),
 ("venezia", "Venezia"),
 ("verbano cusio ossola", "Verbano-Cusio-Ossola"),
 ("vercelli", "Vercelli"),
 ("verona", "Verona"),
 ("vibo valentia", "Vibo Valentia"),
 ("vicenza", "Vicenza"),
 ("viterbo", "Viterbo"),
 ("centro", "Centro"),
 ("isole", "Isole"),
 ("nord est", "Nord-est"),
 ("nord ovest", "Nord-ovest"),
 ("sud", "Sud"),
 ("agrigento", "Agrigento"),
 ("agrigento", "Agrigento"),
 ("agrigento", "Agrigento"),
 ("alessandria", "Alessandria"),
 ("alessandria", "Alessandria"),
 ("alessandria", "Alessandria"),
 ("ancona", "Ancona"),
 ("ancona", "Ancona"),
 ("ancona", "Ancona"),
 ("aosta", "Aosta"),
 ("aosta", "Aosta"),
 ("aosta", "Aosta"),
 ("arezzo", "Arezzo"),
 ("arezzo", "Arezzo"),
 ("arezzo", "Arezzo"),
 ("ascoli piceno", "Ascoli Piceno"),
 ("ascoli piceno", "Ascoli Piceno"),
 ("ascoli piceno", "Ascoli Piceno"),
 ("asti", "Asti"),
 ("asti", "Asti"),
 ("asti", "Asti"),
 ("avellino", "Avellino"),
 ("avellino", "Avellino"),
 ("avellino", "Avellino"),
 ("bari", "Bari"),
 ("bari", "Bari"),
 ("bari", "Bari"),
 ("bari", "Bari"),
 ("barletta andria trani", "Barletta-Andria-Trani"),
 ("barletta andria trani", "Barletta-Andria-Trani"),
 ("barletta andria trani", "Barletta-Andria-Trani"),
 ("belluno", "Belluno"),
 ("belluno", "Belluno"),
 ("belluno", "Belluno"),
 ("benevento", "Benevento"),
 ("benevento", "Benevento"),
 ("benevento", "Benevento"),
 ("bergamo", "Bergamo"),
 ("bergamo", "Bergamo"),
 ("bergamo", "Bergamo"),
 ("biella", "Biella"),
 ("biella", "Biella"),
 ("biella", "Biella"),
 ("bologna", "Bologna"),
 ("bologna", "Bologna"),
 ("bologna", "Bologna"),
 ("bologna", "Bologna"),
 ("bolzano/bozen", "Bolzano/Bozen"),
 ("bolzano/bozen", "Bolzano/Bozen"),
 ("bolzano/bozen", "Bolzano/Bozen"),
 ("brescia", "Brescia"),
 ("brescia", "Brescia"),
 ("brescia", "Brescia"),
 ("brindisi", "Brindisi"),
 ("brindisi", "Brindisi"),
 ("brindisi", "Brindisi"),
 ("cagliari", "Cagliari"),
 ("cagliari", "Cagliari"),
 ("cagliari", "Cagliari"),
 ("cagliari", "Cagliari"),
 ("caltanissetta", "Caltanissetta"),
 ("caltanissetta", "Caltanissetta"),
 ("caltanissetta", "Caltanissetta"),
 ("campobasso", "Campobasso"),
 ("campobasso", "Campobasso"),
 ("campobasso", "Campobasso"),
 ("caserta", "Caserta"),
 ("caserta", "Caserta"),
 ("caserta", "Caserta"),
 ("catania", "Catania"),
 ("catania", "Catania"),
 ("catania", "Catania"),
 ("catania", "Catania"),
 ("catanzaro", "Catanzaro"),
 ("catanzaro", "Catanzaro"),
 ("catanzaro", "Catanzaro"),
 ("chieti", "Chieti"),
 ("chieti", "Chieti"),
 ("chieti", "Chieti"),
 ("como", "Como"),
 ("como", "Como"),
 ("como", "Como"),
 ("cosenza", "Cosenza"),
 ("cosenza", "Cosenza"),
 ("cosenza", "Cosenza"),
 ("cremona", "Cremona"),
 ("cremona", "Cremona"),
 ("cremona", "Cremona"),
 ("crotone", "Crotone"),
 ("crotone", "Crotone"),
 ("crotone", "Crotone"),
 ("cuneo", "Cuneo"),
 ("cuneo", "Cuneo"),
 ("cuneo", "Cuneo"),
 ("enna", "Enna"),
 ("enna", "Enna"),
 ("enna", "Enna"),
 ("fermo", "Fermo"),
 ("fermo", "Fermo"),
 ("fermo", "Fermo"),
 ("ferrara", "Ferrara"),
 ("ferrara", "Ferrara"),
 ("ferrara", "Ferrara"),
 ("firenze", "Firenze"),
 ("firenze", "Firenze"),
 ("firenze", "Firenze"),
 ("firenze", "Firenze"),
 ("foggia", "Foggia"),
 ("foggia", "Foggia"),
 ("foggia", "Foggia"),
 ("forli cesena", "Forlì-Cesena"),
 ("forli cesena", "Forlì-Cesena"),
 ("forli cesena", "Forlì-Cesena"),
 ("frosinone", "Frosinone"),
 ("frosinone", "Frosinone"),
 ("frosinone", "Frosinone"),
 ("genova", "Genova"),
 ("genova", "Genova"),
 ("genova", "Genova"),
 ("genova", "Genova"),
 ("gorizia", "Gorizia"),
 ("gorizia", "Gorizia"),
 ("gorizia", "Gorizia"),
 ("grosseto", "Grosseto"),
 ("grosseto", "Grosseto"),
 ("grosseto", "Grosseto"),
 ("imperia", "Imperia"),
 ("imperia", "Imperia"),
 ("imperia", "Imperia"),
 ("isernia", "Isernia"),
 ("isernia", "Isernia"),
 ("isernia", "Isernia"),
 ("l aquila", "L'Aquila"),
 ("l aquila", "L'Aquila"),
 ("l aquila", "L'Aquila"),
 ("la spezia", "La Spezia"),
 ("la spezia", "La Spezia"),
 ("la spezia", "La Spezia"),
 ("latina", "Latina"),
 ("latina", "Latina"),
 ("latina", "Latina"),
 ("lecce", "Lecce"),
 ("lecce", "Lecce"),
 ("lecce", "Lecce"),
 ("lecco", "Lecco"),
 ("lecco", "Lecco"),
 ("lecco", "Lecco"),
 ("livorno", "Livorno"),
 ("livorno", "Livorno"),
 ("livorno", "Livorno"),
 ("lodi", "Lodi"),
 ("lodi", "Lodi"),
 ("lodi", "Lodi"),
 ("lucca", "Lucca"),
 ("lucca", "Lucca"),
 ("lucca", "Lucca"),
 ("macerata", "Macerata"),
 ("macerata", "Macerata"),
 ("macerata", "Macerata"),
 ("mantova", "Mantova"),
 ("mantova", "Mantova"),
 ("mantova", "Mantova"),
 ("massa carrara", "Massa-Carrara"),
 ("massa carrara", "Massa-Carrara"),
 ("massa carrara", "Massa-Carrara"),
 ("matera", "Matera"),
 ("matera", "Matera"),
 ("matera", "Matera"),
 ("messina", "Messina"),
 ("messina", "Messina"),
 ("messina", "Messina"),
 ("messina", "Messina"),
 ("milano", "Milano"),
 ("milano", "Milano"),
 ("milano", "Milano"),
 ("milano", "Milano"),
 ("modena", "Modena"),
 ("modena", "Modena"),
 ("modena", "Modena"),
 ("monza e della brianza", "Monza e della Brianza"),
 ("monza e della brianza", "Monza e della Brianza"),
 ("monza e della brianza", "Monza e della Brianza"),
 ("napoli", "Napoli"),
 ("napoli", "Napoli"),
 ("napoli", "Napoli"),
 ("napoli", "Napoli"),
 ("novara", "Novara"),
 ("novara", "Novara"),
 ("novara", "Novara"),
 ("nuoro", "Nuoro"),
 ("nuoro", "Nuoro"),
 ("nuoro", "Nuoro"),
 ("oristano", "Oristano"),
 ("oristano", "Oristano"),
 ("oristano", "Oristano"),
 ("padova", "Padova"),
 ("padova", "Padova"),
 ("padova", "Padova"),
 ("palermo", "Palermo"),
 ("palermo", "Palermo"),
 ("palermo", "Palermo"),
 ("palermo", "Palermo"),
 ("parma", "Parma"),
 ("parma", "Parma"),
 ("parma", "Parma"),
 ("pavia", "Pavia"),
 ("pavia", "Pavia"),
 ("pavia", "Pavia"),
 ("perugia", "Perugia"),
 ("perugia", "Perugia"),
 ("perugia", "Perugia"),
 ("pesaro e urbino", "Pesaro e Urbino"),
 ("pesaro e urbino", "Pesaro e Urbino"),
 ("pesaro e urbino", "Pesaro e Urbino"),
 ("pescara", "Pescara"),
 ("pescara", "Pescara"),
 ("pescara", "Pescara"),
 ("piacenza", "Piacenza"),
 ("piacenza", "Piacenza"),
 ("piacenza", "Piacenza"),
 ("pisa", "Pisa"),
 ("pisa", "Pisa"),
 ("pisa", "Pisa"),
 ("pistoia", "Pistoia"),
 ("pistoia", "Pistoia"),
 ("pistoia", "Pistoia"),
 ("pordenone", "Pordenone"),
 ("pordenone", "Pordenone"),
 ("pordenone", "Pordenone"),
 ("potenza", "Potenza"),
 ("potenza", "Potenza"),
 ("potenza", "Potenza"),
 ("prato", "Prato"),
 ("prato", "Prato"),
 ("prato", "Prato"),
 ("ragusa", "Ragusa"),
 ("ragusa", "Ragusa"),
 ("ragusa", "Ragusa"),
 ("ravenna", "Ravenna"),
 ("ravenna", "Ravenna"),
 ("ravenna", "Ravenna"),
 ("reggio calabria", "Reggio Calabria"),
 ("reggio calabria", "Reggio Calabria"),
 ("reggio calabria", "Reggio Calabria"),
 ("reggio calabria", "Reggio Calabria"),
 ("reggio nell emilia", "Reggio nell'Emilia"),
 ("reggio nell emilia", "Reggio nell'Emilia"),
 ("reggio nell emilia", "Reggio nell'Emilia"),
 ("rieti", "Rieti"),
 ("rieti", "Rieti"),
 ("rieti", "Rieti"),
 ("rimini", "Rimini"),
 ("rimini", "Rimini"),
 ("rimini", "Rimini"),
 ("roma", "Roma"),
 ("roma", "Roma"),
 ("roma", "Roma"),
 ("roma", "Roma"),
 ("rovigo", "Rovigo"),
 ("rovigo", "Rovigo"),
 ("rovigo", "Rovigo"),
 ("salerno", "Salerno"),
 ("salerno", "Salerno"),
 ("salerno", "Salerno"),
 ("sassari", "Sassari"),
 ("sassari", "Sassari"),
 ("sassari", "Sassari"),
 ("savona", "Savona"),
 ("savona", "Savona"),
 ("savona", "Savona"),
 ("siena", "Siena"),
 ("siena", "Siena"),
 ("siena", "Siena"),
 ("siracusa", "Siracusa"),
 ("siracusa", "Siracusa"),
 ("siracusa", "Siracusa"),
 ("sondrio", "Sondrio"),
 ("sondrio", "Sondrio"),
 ("sondrio", "Sondrio"),
 ("sud sardegna", "Sud Sardegna"),
 ("sud sardegna", "Sud Sardegna"),
 ("sud sardegna", "Sud Sardegna"),
 ("taranto", "Taranto"),
 ("taranto", "Taranto"),
 ("taranto", "Taranto"),
 ("teramo", "Teramo"),
 ("teramo", "Teramo"),
 ("teramo", "Teramo"),
 ("terni", "Terni"),
 ("terni", "Terni"),
 ("terni", "Terni"),
 ("torino", "Torino"),
 ("torino", "Torino"),
 ("torino", "Torino"),
 ("torino", "Torino"),
 ("trapani", "Trapani"),
 ("trapani", "Trapani"),
 ("trapani", "Trapani"),
 ("trento", "Trento"),
 ("trento", "Trento"),
 ("trento", "Trento"),
 ("treviso", "Treviso"),
 ("treviso", "Treviso"),
 ("treviso", "Treviso"),
 ("trieste", "Trieste"),
 ("trieste", "Trieste"),
 ("trieste", "Trieste"),
 ("udine", "Udine"),
 ("udine", "Udine"),
 ("udine", "Udine"),
 ("varese", "Varese"),
 ("varese", "Varese"),
 ("varese", "Varese"),
 ("venezia", "Venezia"),
 ("venezia", "Venezia"),
 ("venezia", "Venezia"),
 ("venezia", "Venezia"),
 ("verbano cusio ossola", "Verbano-Cusio-Ossola"),
 ("verbano cusio ossola", "Verbano-Cusio-Ossola"),
 ("verbano cusio ossola", "Verbano-Cusio-Ossola"),
 ("vercelli", "Vercelli"),
 ("vercelli", "Vercelli"),
 ("vercelli", "Vercelli"),
 ("verona", "Verona"),
 ("verona", "Verona"),
 ("verona", "Verona"),
 ("vibo valentia", "Vibo Valentia"),
 ("vibo valentia", "Vibo Valentia"),
 ("vibo valentia", "Vibo Valentia"),
 ("vicenza", "Vicenza"),
 ("vicenza", "Vicenza"),
 ("vicenza", "Vicenza"),
 ("viterbo", "Viterbo"),
 ("viterbo", "Viterbo"),
 ("viterbo", "Viterbo"),
 ("reggio emilia", "Reggio nell'Emilia"),
 ("reggio di calabria", "Reggio Calabria"),
 ("forli cesena", "Forlì-Cesena"),
 ("forli cesena", "Forlì-Cesena"),
 ("forli cesena", "Forlì-Cesena"),
 ("spezia", "La Spezia"),
 ("massa carrara", "Massa-Carrara"),
 ("massa carrara", "Massa-Carrara"),
 ("monza e brianza", "Monza e della Brianza"),
 ("monza brianza", "Monza e della Brianza"),
 ("bolzano", "Bolzano/Bozen"),
 ("bozen", "Bolzano/Bozen"),
 ("bolzano bozen", "Bolzano/Bozen"),
 ("bozen bolzano", "Bolzano/Bozen"),
 ("barletta andria trani", "Barletta-Andria-Trani"),
 ("bat", "Barletta-Andria-Trani"),
 ("b.a.t.", "Barletta-Andria-Trani"),
 ("pesaro urbino", "Pesaro e Urbino"),
 ("valle d aosta", "Valle d'Aosta/Vallée d'Aoste"),
 ("valle d aosta", "Valle d'Aosta/Vallée d'Aoste"),
 ("valle d aosta", "Valle d'Aosta/Vallée d'Aoste"),
 ("vallee daoste", "Valle d'Aosta/Vallée d'Aoste"),
 ("friuli venezia giulia", "Friuli-Venezia Giulia"),
 ("trentino alto adige", "Trentino-Alto Adige/Südtirol"),
 ("trentino alto adige", "Trentino-Alto Adige/Südtirol")]

def NORM_PROV_lit : List (String × String) :=
  [("l aquila", "L'Aquila"),
 ("teramo", "Teramo"),
 ("pescara", "Pescara"),
 ("chieti", "Chieti"),
 ("potenza", "Potenza"),
 ("matera", "Matera"),
 ("catanzaro", "Catanzaro"),
 ("cosenza", "Cosenza"),
 ("crotone", "Crotone"),
 ("reggio calabria", "Reggio Calabria"),
 ("vibo valentia", "Vibo Valentia"),
 ("avellino", "Avellino"),
 ("benevento", "Benevento"),
 ("caserta", "Caserta"),
 ("napoli", "Napoli"),
 ("salerno", "Salerno"),
 ("bologna", "Bologna"),
 ("ferrara", "Ferrara"),
 ("forli cesena", "Forlì-Cesena"),
 ("modena", "Modena"),
 ("parma", "Parma"),
 ("piacenza", "Piacenza"),
 ("ravenna", "Ravenna"),
 ("reggio nell emilia", "Reggio nell'Emilia"),
 ("rimini", "Rimini"),
 ("gorizia", "Gorizia"),
 ("pordenone", "Pordenone"),
 ("trieste", "Trieste"),
 ("udine", "Udine"),
 ("frosinone", "Frosinone"),
 ("latina", "Latina"),
 ("rieti", "Rieti"),
 ("roma", "Roma"),
 ("viterbo", "Viterbo"),
 ("genova", "Genova"),
 ("imperia", "Imperia"),
 ("la spezia", "La Spezia"),
 ("savona", "Savona"),
 ("bergamo", "Bergamo"),
 ("brescia", "Brescia"),
 ("como", "Como"),
 ("cremona", "Cremona"),
 ("lecco", "Lecco"),
 ("lodi", "Lodi"),
 ("mantova", "Mantova"),
 ("milano", "Milano"),
 ("monza e della brianza", "Monza e della Brianza"),
 ("pavia", "Pavia"),
 ("sondrio", "Sondrio"),
 ("varese", "Varese"),
 ("ancona", "Ancona"),
 ("ascoli piceno", "Ascoli Piceno"),
 ("fermo", "Fermo"),
 ("macerata", "Macerata"),
 ("pesaro e urbino", "Pesaro e Urbino"),
 ("campobasso", "Campobasso"),
 ("isernia", "Isernia"),
 ("alessandria", "Alessandria"),
 ("asti", "Asti"),
 ("biella", "Biella"),
 ("cuneo", "Cuneo"),
 ("novara", "Novara"),
 ("torino", "Torino"),
 ("verbano cusio ossola", "Verbano-Cusio-Ossola"),
 ("vercelli", "Vercelli"),
 ("bari", "Bari"),
 ("barletta andria trani", "Barletta-Andria-Trani"),
 ("brindisi", "Brindisi"),
 ("foggia", "Foggia"),
 ("lecce", "Lecce"),
 ("taranto", "Taranto"),
 ("cagliari", "Cagliari"),
 ("nuoro", "Nuoro"),
 ("oristano", "Oristano"),
 ("sassari", "Sassari"),
 ("sud sardegna", "Sud Sardegna"),
 ("agrigento", "Agrigento"),
 ("caltanissetta", "Caltanissetta"),
 ("catania", "Catania"),
 ("enna", "Enna"),
 ("messina", "Messina"),
 ("palermo", "Palermo"),
 ("ragusa", "Ragusa"),
 ("siracusa", "Siracusa"),
 ("trapani", "Trapani"),
 ("arezzo", "Arezzo"),
 ("firenze", "Firenze"),
 ("grosseto", "Grosseto"),
 ("livorno", "Livorno"),
 ("lucca", "Lucca"),
 ("massa carrara", "Massa-Carrara"),
 ("pisa", "Pisa"),
 ("pistoia", "Pistoia"),
 ("prato", "Prato"),
 ("siena", "Siena"),
 ("bolzano/bozen", "Bolzano/Bozen"),
 ("trento", "Trento"),
 ("perugia", "Perugia"),
 ("terni", "Terni"),
 ("aosta", "Aosta"),
 ("belluno", "Belluno"),
 ("padova", "Padova"),
 ("rovigo", "Rovigo"),
 ("treviso", "Treviso"),
 ("venezia", "Venezia"),
 ("verona", "Verona"),
 ("vicenza", "Vicenza")]

def NORM_REG_lit : List (String × String) :=
  [("abruzzo", "Abruzzo"),
 ("basilicata", "Basilicata"),
 ("calabria", "Calabria"),
 ("campania", "Campania"),
 ("emilia romagna", "Emilia-Romagna"),
 ("friuli venezia giulia", "Friuli-Venezia Giulia"),
 ("lazio", "Lazio"),
 ("liguria", "Liguria"),
 ("lombardia", "Lombardia"),
 ("marche", "Marche"),
 ("molise", "Molise"),
 ("piemonte", "Piemonte"),
 ("puglia", "Puglia"),
 ("sardegna", "Sardegna"),
 ("sicilia", "Sicilia"),
 ("toscana", "Toscana"),
 ("trentino alto adige/sudtirol", "Trentino-Alto Adige/Südtirol"),
 ("umbria", "Umbria"),
 ("valle d aosta/vallee d aoste", "Valle d'Aosta/Vallée d'Aoste"),
 ("veneto", "Veneto")]

def NORM_MAC_lit : List (String × String) :=
  [("centro", "Centro"), ("isole", "Isole"), ("nord est", "Nord-est"), ("nord ovest", "Nord-ovest"), ("sud", "Sud")]

def PROV_KEYS_lit : List String :=
  ["l aquila", "teramo", "pescara", "chieti", "potenza", "matera", "catanzaro", "cosenza", "crotone", "reggio calabria",
 "vibo valentia", "avellino", "benevento", "caserta", "napoli", "salerno", "bologna", "ferrara", "forli cesena",
 "modena", "parma", "piacenza", "ravenna", "reggio nell emilia", "rimini", "gorizia", "pordenone", "trieste", "udine",
 "frosinone", "latina", "rieti", "roma", "viterbo", "genova", "imperia", "la spezia", "savona", "bergamo", "brescia",
 "como", "cremona", "lecco", "lodi", "mantova", "milano", "monza e della brianza", "pavia", "sondrio", "varese",
 "ancona", "ascoli piceno", "fermo", "macerata", "pesaro e urbino", "campobasso", "isernia", "alessandria", "asti",
 "biella", "cuneo", "novara", "torino", "verbano cusio ossola", "vercelli", "bari", "barletta andria trani", "brindisi",
 "foggia", "lecce", "taranto", "cagliari", "nuoro", "oristano", "sassari", "sud sardegna", "agrigento", "caltanissetta",
 "catania", "enna", "messina", "palermo", "ragusa", "siracusa", "trapani", "arezzo", "firenze", "grosseto", "livorno",
 "lucca", "massa carrara", "pisa", "pistoia", "prato", "siena", "bolzano/bozen", "trento", "perugia", "terni", "aosta",
 "belluno", "padova", "rovigo", "treviso", "venezia", "verona", "vicenza"]

def REG_KEYS_lit : List String :=
  ["abruzzo", "basilicata", "calabria", "campania", "emilia romagna", "friuli venezia giulia", "lazio", "liguria",
 "lombardia", "marche", "molise", "piemonte", "puglia", "sardegna", "sicilia", "toscana",
 "trentino alto adige/sudtirol", "umbria", "valle d aosta/vallee d aoste", "veneto"]

def MAC_KEYS_lit : List String :=
  ["centro", "isole", "nord est", "nord ovest", "sud"]

def ALL_PROVINCES_lit : List String :=
  ["Agrigento", "Alessandria", "Ancona", "Aosta", "Arezzo", "Ascoli Piceno", "Asti", "Avellino", "Bari",
 "Barletta-Andria-Trani", "Belluno", "Benevento", "Bergamo", "Biella", "Bologna", "Bolzano/Bozen", "Brescia",
 "Brindisi", "Cagliari", "Caltanissetta", "Campobasso", "Caserta", "Catania", "Catanzaro", "Chieti", "Como", "Cosenza",
 "Cremona", "Crotone", "Cuneo", "Enna", "Fermo", "Ferrara", "Firenze", "Foggia", "Forlì-Cesena", "Frosinone", "Genova",
 "Gorizia", "Grosseto", "Imperia", "Isernia", "L'Aquila", "La Spezia", "Latina", "Lecce", "Lecco", "Livorno", "Lodi",
 "Lucca", "Macerata", "Mantova", "Massa-Carrara", "Matera", "Messina", "Milano", "Modena", "Monza e della Brianza",
 "Napoli", "Novara", "Nuoro", "Oristano", "Padova", "Palermo", "Parma", "Pavia", "Perugia", "Pesaro e Urbino",
 "Pescara", "Piacenza", "Pisa", "Pistoia", "Pordenone", "Potenza", "Prato", "Ragusa", "Ravenna", "Reggio Calabria",
 "Reggio nell'Emilia", "Rieti", "Rimini", "Roma", "Rovigo", "Salerno", "Sassari", "Savona", "Siena", "Siracusa",
 "Sondrio", "Sud Sardegna", "Taranto", "Teramo", "Terni", "Torino", "Trapani", "Trento", "Treviso", "Trieste", "Udine",
 "Varese", "Venezia", "Verbano-Cusio-Ossola", "Vercelli", "Verona", "Vibo Valentia", "Vicenza", "Viterbo"]

def MACROS_lit : List String :=
  ["Centro", "Isole", "Nord-est", "Nord-ovest", "Sud"]

theorem NORM_ALIAS_lit_eq : NORM_ALIAS = NORM_ALIAS_lit := by
  decide

theorem NORM_PROV_lit_eq : NORM_PROV = NORM_PROV_lit := by
  decide

theorem NORM_REG_lit_eq : NORM_REG = NORM_REG_lit := by
  decide

theorem NORM_MAC_lit_eq : NORM_MAC = NORM_MAC_lit := by
  decide

theorem ALL_PROVINCES_lit_eq : ALL_PROVINCES = ALL_PROVINCES_lit := by
  decide

theorem MACROS_lit_eq : MACROS = MACROS_lit := by
  decide

theorem dkeys_NORM_PROV_lit_eq : dkeys NORM_PROV_lit = PROV_KEYS_lit := by
  decide

theorem dkeys_NORM_REG_lit_eq : dkeys NORM_REG_lit = REG_KEYS_lit := by
  decide

theorem dkeys_NORM_MAC_lit_eq : dkeys NORM_MAC_lit = MAC_KEYS_lit := by
  decide


/-! ### The resolver over the literal dictionaries

`standardize_territory_fast` is `standardize_territory` with each derived
dictionary replaced by its kernel-checked literal image; the `_eq`
theorems below prove the two resolvers agree on every input, so claim
proofs may evaluate the fast one. -/

def tier3_fast (tok : String) : TerritoryRecord :=
  match match_from_candidates tok PROV_KEYS_lit with
  | some m =>
    let p := dget NORM_PROV_lit m
    { level := "province", province_std := p,
      region_std := p.bind (dget PROVINCE_TO_REGION),
      macro_std := (p.bind (dget PROVINCE_TO_REGION)).bind (dget REGION_TO_MACRO) }
  | none =>
    match match_from_candidates tok REG_KEYS_lit with
    | some m =>
      let r := dget NORM_REG_lit m
      { level := "region", province_std := none, region_std := r,
        macro_std := r.bind (dget REGION_TO_MACRO) }
    | none =>
      match match_from_candidates tok MAC_KEYS_lit with
      | some m =>
        { level := "macro", province_std := none, region_std := none,
          macro_std := dget NORM_MAC_lit m }
      | none => tier4 tok

def tier2_fast (tok : String) : TerritoryRecord :=
  match dget NORM_PROV_lit tok with
  | some p =>
    { level := "province", province_std := some p,
      region_std := dget PROVINCE_TO_REGION p,
      macro_std := (dget PROVINCE_TO_REGION p).bind (dget REGION_TO_MACRO) }
  | none =>
    match dget NORM_REG_lit tok with
    | some r =>
      { level := "region", province_std := none, region_std := some r,
        macro_std := dget REGION_TO_MACRO r }
    | none =>
      match dget NORM_MAC_lit tok with
      | some m =>
        { level := "macro", province_std := none, region_std := none,
          macro_std := some m }
      | none => tier3_fast tok

def tier1_fast (tok : String) : TerritoryRecord :=
  match dget NORM_ALIAS_lit tok with
  | some canonical =>
    match dget PROVINCE_TO_REGION canonical with
    | some reg =>
      { level := "province", province_std := some canonical,
        region_std := some reg, macro_std := dget REGION_TO_MACRO reg }
    | none =>
      if canonical ∈ REGIONS then
        { level := "region", province_std := none, region_std := some canonical,
          macro_std := dget REGION_TO_MACRO canonical }
      else if canonical ∈ MACROS_lit then
        { level := "macro", province_std := none, region_std := none,
          macro_std := some canonical }
      else tier2_fast tok
  | none => tier2_fast tok

def standardize_territory_fast : Option String → TerritoryRecord
  | none => unknownRecord
  | some raw => tier1_fast (base_normalize raw)

theorem tier3_eq (tok : String) : tier3 tok = tier3_fast tok := by
  unfold tier3 tier3_fast
  rw [NORM_PROV_lit_eq, NORM_REG_lit_eq, NORM_MAC_lit_eq,
    dkeys_NORM_PROV_lit_eq, dkeys_NORM_REG_lit_eq, dkeys_NORM_MAC_lit_eq]

theorem tier2_eq (tok : String) : tier2 tok = tier2_fast tok := by
  unfold tier2 tier2_fast
  rw [NORM_PROV_lit_eq, NORM_REG_lit_eq, NORM_MAC_lit_eq, tier3_eq tok]

theorem tier1_eq (tok : String) : tier1 tok = tier1_fast tok := by
  unfold tier1 tier1_fast
  rw [NORM_ALIAS_lit_eq, MACROS_lit_eq, tier2_eq tok]

theorem standardize_eq (raw : Option String) :
    standardize_territory raw = standardize_territory_fast raw := by
  rcases raw with _ | r
  · rfl
  · exact tier1_eq (base_normalize r)

/-! ### Generic lemmas about the dictionary model -/

theorem dget_mem {m : List (String × String)} {k v : String}
    (h : dget m k = some v) : (k, v) ∈ m := by
  induction m with
  | nil => simp [dget] at h
  | cons p ps ih =>
    rw [dget] at h
    rcases hps : dget ps k with _ | w
    · simp only [hps] at h
      split_ifs at h with hk
      cases h
      subst hk
      exact List.mem_cons_self _ _
    · simp only [hps] at h
      cases h
      exact List.mem_cons_of_mem _ (ih hps)

theorem dget_isSome_keys {m : List (String × String)} {k : String}
    (h : (dget m k).isSome = true) : k ∈ m.map Prod.fst := by
  rcases Option.isSome_iff_exists.mp h with ⟨v, hv⟩
  exact List.mem_map_of_mem Prod.fst (dget_mem hv)

theorem mem_dkeys_isSome {m : List (String × String)} {k : String}
    (h : k ∈ dkeys m) : (dget m k).isSome = true := by
  induction m with
  | nil => simp [dkeys] at h
  | cons p ps ih =>
    rw [dkeys] at h
    rcases List.mem_cons.mp h with h | h
    · subst h
      rw [dget]
      rcases hps : dget ps p.1 with _ | w
      · simp
      · simp
    · have hk := ih (List.mem_filter.mp h).1
      rw [dget]
      rcases hps : dget ps k with _ | w
      · rw [hps] at hk; simp at hk
      · simp

/-- The fold in `match_from_candidates` only ever returns an element of
the scored list (or the initial accumulator). -/
theorem foldBest_mem {l : List (Nat × Nat × String)} {acc : Option (Nat × Nat × String)}
    {p : Nat × Nat × String}
    (h : l.foldl
        (fun acc q => match acc with
          | none => some q
          | some r => if beatsScore q r then some q else some r) acc = some p) :
    p ∈ l ∨ acc = some p := by
  induction l generalizing acc with
  | nil => right; exact h
  | cons q qs ih =>
    rw [List.foldl_cons] at h
    rcases ih h with hmem | hacc
    · left; exact List.mem_cons_of_mem _ hmem
    · rcases acc with _ | r
      · simp only [] at hacc
        cases hacc
        left; exact List.mem_cons_self _ _
      · simp only [] at hacc
        split_ifs at hacc
        · cases hacc
          left; exact List.mem_cons_self _ _
        · right; exact hacc

theorem mfc_mem {t : String} {cs : List String} {x : String}
    (h : match_from_candidates t cs = some x) : x ∈ cs := by
  simp only [match_from_candidates] at h
  rcases Option.map_eq_some'.mp h with ⟨p, hp, hpx⟩
  subst hpx
  rcases foldBest_mem hp with hmem | habs
  · rcases List.mem_filterMap.mp hmem with ⟨y, hy, hfy⟩
    split_ifs at hfy
    cases hfy
    exact hy
  · exact absurd habs (by simp)

/-! ### Structural invariants of the resolver output -/

/-- The record invariant combining hierarchy consistency (claim C3) and
the field-presence pattern (claim C7). -/
def recOK (rec : TerritoryRecord) : Prop :=
  (rec.level = "province" →
      rec.region_std = rec.province_std.bind (dget PROVINCE_TO_REGION) ∧
      rec.macro_std = rec.region_std.bind (dget REGION_TO_MACRO)) ∧
  (rec.province_std.isSome = true ↔ rec.level = "province") ∧
  (rec.region_std.isSome = true ↔ (rec.level = "province" ∨ rec.level = "region")) ∧
  (rec.macro_std.isSome = true ↔
    (rec.level = "province" ∨ rec.level = "region" ∨ rec.level = "macro"))

/-- Every region owning a province has a macro-area. -/
theorem dataF1 : ∀ pr ∈ PROVINCE_TO_REGION, (dget REGION_TO_MACRO pr.2).isSome = true := by
  decide

/-- Every region has a macro-area. -/
theorem dataF2 : ∀ r ∈ REGIONS, (dget REGION_TO_MACRO r).isSome = true := by
  decide

/-- Every value of `NORM_PROV` is a province with a region and a macro-area. -/
theorem dataF3 : ∀ pr ∈ NORM_PROV,
    ((dget PROVINCE_TO_REGION pr.2).bind (dget REGION_TO_MACRO)).isSome = true := by
  decide

/-- Every value of `NORM_REG` is a region with a macro-area. -/
theorem dataF4 : ∀ pr ∈ NORM_REG, (dget REGION_TO_MACRO pr.2).isSome = true := by
  decide

theorem tier4_OK (tok : String) : recOK (tier4 tok) := by
  unfold tier4
  split_ifs <;> simp [recOK, unknownRecord]

theorem tier3_OK (tok : String) : recOK (tier3 tok) := by
  unfold tier3
  rcases h1 : match_from_candidates tok (dkeys NORM_PROV) with _ | m
  · simp only [h1]
    rcases h2 : match_from_candidates tok (dkeys NORM_REG) with _ | m
    · simp only [h2]
      rcases h3 : match_from_candidates tok (dkeys NORM_MAC) with _ | m
      · simp only [h3]
        exact tier4_OK tok
      · simp only [h3]
        have hm : (dget NORM_MAC m).isSome = true := mem_dkeys_isSome (mfc_mem h3)
        simp [recOK, hm]
    · simp only [h2]
      have hm : (dget NORM_REG m).isSome = true := mem_dkeys_isSome (mfc_mem h2)
      rcases Option.isSome_iff_exists.mp hm with ⟨r, hr⟩
      have hmac : (dget REGION_TO_MACRO r).isSome = true := dataF4 (m, r) (dget_mem hr)
      simp [recOK, hr, hmac]
  · simp only [h1]
    have hm : (dget NORM_PROV m).isSome = true := mem_dkeys_isSome (mfc_mem h1)
    rcases Option.isSome_iff_exists.mp hm with ⟨p, hp⟩
    have hmac : ((dget PROVINCE_TO_REGION p).bind (dget REGION_TO_MACRO)).isSome = true :=
      dataF3 (m, p) (dget_mem hp)
    have hreg : (dget PROVINCE_TO_REGION p).isSome = true := by
      rcases hr : dget PROVINCE_TO_REGION p with _ | r
      · rw [hr] at hmac; simp at hmac
      · simp
    rcases Option.isSome_iff_exists.mp hreg with ⟨r, hr⟩
    rw [hr] at hmac
    simp only [Option.some_bind] at hmac
    refine ⟨fun _ => ⟨rfl, rfl⟩, ?_, ?_, ?_⟩ <;> simp [hp, hr, hmac]

theorem tier2_OK (tok : String) : recOK (tier2 tok) := by
  unfold tier2
  rcases h1 : dget NORM_PROV tok with _ | p
  · simp only [h1]
    rcases h2 : dget NORM_REG tok with _ | r
    · simp only [h2]
      rcases h3 : dget NORM_MAC tok with _ | m
      · simp only [h3]
        exact tier3_OK tok
      · simp only [h3]
        simp [recOK]
    · simp only [h2]
      have hmac : (dget REGION_TO_MACRO r).isSome = true := dataF4 (tok, r) (dget_mem h2)
      simp [recOK, hmac]
  · simp only [h1]
    have hmac : ((dget PROVINCE_TO_REGION p).bind (dget REGION_TO_MACRO)).isSome = true :=
      dataF3 (tok, p) (dget_mem h1)
    have hreg : (dget PROVINCE_TO_REGION p).isSome = true := by
      rcases hr : dget PROVINCE_TO_REGION p with _ | r
      · rw [hr] at hmac; simp at hmac
      · simp
    rcases Option.isSome_iff_exists.mp hreg with ⟨r, hr⟩
    rw [hr] at hmac
    simp only [Option.some_bind] at hmac
    refine ⟨fun _ => ⟨rfl, rfl⟩, ?_, ?_, ?_⟩ <;> simp [hr, hmac]

theorem tier1_OK (tok : String) : recOK (tier1 tok) := by
  unfold tier1
  rcases h1 : dget NORM_ALIAS tok with _ | c
  · simp only [h1]
    exact tier2_OK tok
  · simp only [h1]
    rcases h2 : dget PROVINCE_TO_REGION c with _ | reg
    · simp only [h2]
      split_ifs with hreg hmac
      · have hm := dataF2 _ hreg
        simp [recOK, hm]
      · simp [recOK]
      · exact tier2_OK tok
    · simp only [h2]
      have hm : (dget REGION_TO_MACRO reg).isSome = true := dataF1 (c, reg) (dget_mem h2)
      refine ⟨fun _ => ⟨by simp [h2], rfl⟩, ?_, ?_, ?_⟩ <;> simp [hm]

/-- The combined record invariant holds for every input. -/
theorem stdOK (raw : Option String) : recOK (standardize_territory raw) := by
  rcases raw with _ | r
  · simp [recOK, standardize_territory, unknownRecord]
  · exact tier1_OK (base_normalize r)

/-! ### Claim C3: hierarchy consistency -/

/-- **C3.** Whenever resolution yields `level = "province"`, the returned
`region_std` is exactly the `PROVINCE_TO_REGION` value of the returned
`province_std`, and `macro_std` is exactly the `REGION_TO_MACRO` value of
that region: the fields are always derived through the ownership
hierarchy. -/
theorem C3_hierarchy_consistency (raw : Option String)
    (h : (standardize_territory raw).level = "province") :
    (standardize_territory raw).region_std
        = (standardize_territory raw).province_std.bind (dget PROVINCE_TO_REGION) ∧
    (standardize_territory raw).macro_std
        = (standardize_territory raw).region_std.bind (dget REGION_TO_MACRO) :=
  (stdOK raw).1 h

/-! ### Claim C7: field-presence pattern -/

/-- **C7.** For every input, `province_std` is present iff the level is
"province", `region_std` iff the level is "province" or "region",
`macro_std` iff the level is "province", "region" or "macro"; at level
"unknown" all three fields are absent. -/
theorem C7_field_presence (raw : Option String) :
    ((standardize_territory raw).province_std.isSome = true ↔
        (standardize_territory raw).level = "province") ∧
    ((standardize_territory raw).region_std.isSome = true ↔
        ((standardize_territory raw).level = "province" ∨
         (standardize_territory raw).level = "region")) ∧
    ((standardize_territory raw).macro_std.isSome = true ↔
        ((standardize_territory raw).level = "province" ∨
         (standardize_territory raw).level = "region" ∨
         (standardize_territory raw).level = "macro")) ∧
    ((standardize_territory raw).level = "unknown" →
        (standardize_territory raw).province_std = none ∧
        (standardize_territory raw).region_std = none ∧
        (standardize_territory raw).macro_std = none) := by
  obtain ⟨_, h2, h3, h4⟩ := stdOK raw
  refine ⟨h2, h3, h4, fun hu => ⟨?_, ?_, ?_⟩⟩
  · rcases ho : (standardize_territory raw).province_std with _ | v
    · rfl
    · have hl : (standardize_territory raw).level = "province" := h2.mp (by simp [ho])
      rw [hu] at hl
      exact absurd hl (by decide)
  · rcases ho : (standardize_territory raw).region_std with _ | v
    · rfl
    · have hl := h3.mp (by simp [ho])
      rw [hu] at hl
      rcases hl with hl | hl <;> exact absurd hl (by decide)
  · rcases ho : (standardize_territory raw).macro_std with _ | v
    · rfl
    · have hl := h4.mp (by simp [ho])
      rw [hu] at hl
      rcases hl with hl | hl | hl <;> exact absurd hl (by decide)

/-! ### Normalization idempotence machinery (claim C2)

`base_normalize` is not idempotent in general: stripping one leading
legal-entity prefix can expose another, and outside the modeled
character repertoire NFKD compatibility decompositions can produce
upper-case letters that only the second pass lowers (U+2116 normalizes
to "No" and then to "no").  On inputs from the modeled repertoire it is
idempotent exactly when the normalized form does not itself start with
a strippable prefix.  The development below characterizes the output of
`normTok`:
all its characters are fixed by the lower-casing, accent, apostrophe and
dash stages, every whitespace character in it is a single space, no two
whitespace characters are adjacent, and it neither starts nor ends with
whitespace. -/

/-- A character left untouched by the four character-rewriting stages. -/
def GoodC (c : Char) : Prop :=
  lowerChar c = c ∧ deaccentChar c = c ∧ isApos c = false ∧ isDash c = false

theorem tlook_mem {t : List (Char × Char)} {c v : Char}
    (h : tlook t c = some v) : (c, v) ∈ t := by
  induction t with
  | nil => simp [tlook] at h
  | cons p ps ih =>
    rw [tlook] at h
    split_ifs at h with hk
    · cases h
      subst hk
      exact List.mem_cons_self _ _
    · exact List.mem_cons_of_mem _ (ih h)

theorem lowerChar_eq_or (c : Char) :
    lowerChar c = c ∨ ∃ p ∈ lowerTable, lowerChar c = p.2 := by
  unfold lowerChar
  split_ifs with h
  · rcases hl : tlook lowerTable c with _ | v
    · left; simp
    · right; exact ⟨(c, v), tlook_mem hl, by simp⟩
  · left; rfl

theorem deaccentChar_eq_or (c : Char) :
    deaccentChar c = c ∨ ∃ p ∈ accentTable, deaccentChar c = p.2 := by
  unfold deaccentChar
  split_ifs with h
  · left; rfl
  · rcases hl : tlook accentTable c with _ | v
    · left; simp
    · right; exact ⟨(c, v), tlook_mem hl, by simp⟩

theorem lowerTable_vals_good : ∀ p ∈ lowerTable, GoodC p.2 := by
  intro p hp
  fin_cases hp <;> exact ⟨by decide, by decide, by decide, by decide⟩

theorem accentTable_vals_good : ∀ p ∈ accentTable, GoodC p.2 := by
  intro p hp
  fin_cases hp <;> exact ⟨by decide, by decide, by decide, by decide⟩

theorem goodC_space : GoodC ' ' :=
  ⟨by decide, by decide, by decide, by decide⟩

theorem lowerChar_fix (c : Char) : lowerChar (lowerChar c) = lowerChar c := by
  rcases lowerChar_eq_or c with h | ⟨p, hp, he⟩
  · rw [h, h]
  · rw [he]
    exact (lowerTable_vals_good p hp).1

theorem mem_pyStrip {c : Char} {l : List Char} (h : c ∈ pyStrip l) : c ∈ l := by
  unfold pyStrip at h
  rw [List.mem_reverse] at h
  have h1 := (List.dropWhile_sublist isPyWS).mem h
  rw [List.mem_reverse] at h1
  exact (List.dropWhile_sublist isPyWS).mem h1

theorem mem_collapseWS {c : Char} :
    ∀ {l : List Char}, c ∈ collapseWS l → c = ' ' ∨ c ∈ l
  | [], h => by simp [collapseWS] at h
  | [d], h => by
    rw [collapseWS] at h
    split_ifs at h
    · left; simpa using h
    · right; exact h
  | d :: e :: rest, h => by
    rw [collapseWS] at h
    split_ifs at h
    · rcases mem_collapseWS h with h | h
      · left; exact h
      · right; exact List.mem_cons_of_mem _ h
    · rcases List.mem_cons.mp h with h | h
      · left; exact h
      · rcases mem_collapseWS h with h | h
        · left; exact h
        · right; exact List.mem_cons_of_mem _ h
    · rcases List.mem_cons.mp h with h | h
      · right; exact h ▸ List.mem_cons_self _ _
      · rcases mem_collapseWS h with h | h
        · left; exact h
        · right; exact List.mem_cons_of_mem _ h

theorem mem_stripLeadPfx {c : Char} {l : List Char} (h : c ∈ stripLeadPfx l) : c ∈ l := by
  have key : ∀ p r, afterPfx p l = some r → c ∈ r → c ∈ l := by
    intro p r hpr hc
    unfold afterPfx at hpr
    split_ifs at hpr
    rcases hd : l.drop p.length with _ | ⟨d, ds⟩ <;> simp only [hd] at hpr
    · exact absurd hpr (by simp)
    · split_ifs at hpr
      cases hpr
      have h1 := (List.dropWhile_sublist isPyWS).mem hc
      rw [← hd] at h1
      exact (List.drop_sublist _ _).mem h1
  unfold stripLeadPfx at h
  rcases h1 : afterPfx pfxProvincia l with _ | r <;> rw [h1] at h
  · rcases h2 : afterPfx pfxProv l with _ | r <;> rw [h2] at h
    · rcases h3 : afterPfx pfxCitta l with _ | r <;> rw [h3] at h
      · exact h
      · exact key _ _ h3 h
    · exact key _ _ h2 h
  · exact key _ _ h1 h

theorem stage_good_core (x : Char) :
    GoodC ((fun c => if isDash c then ' ' else c)
      ((fun c => if isApos c then ' ' else c) (deaccentChar (lowerChar x)))) := by
  have hag : lowerChar (deaccentChar (lowerChar x)) = deaccentChar (lowerChar x) ∧
      deaccentChar (deaccentChar (lowerChar x)) = deaccentChar (lowerChar x) := by
    rcases deaccentChar_eq_or (lowerChar x) with h | ⟨p, hp, he⟩
    · rw [h]
      exact ⟨lowerChar_fix x, h⟩
    · rw [he]
      exact ⟨(accentTable_vals_good p hp).1, (accentTable_vals_good p hp).2.1⟩
  simp only []
  by_cases hap : isApos (deaccentChar (lowerChar x)) = true
  · rw [if_pos hap, if_neg (by decide : ¬(isDash ' ' = true))]
    exact goodC_space
  · rw [if_neg hap]
    by_cases hdash : isDash (deaccentChar (lowerChar x)) = true
    · rw [if_pos hdash]
      exact goodC_space
    · rw [if_neg hdash]
      exact ⟨hag.1, hag.2, by simpa using hap, by simpa using hdash⟩

/-- Every character produced by the four character-rewriting stages is
fixed by all of them. -/
theorem stage_good {l : List Char} :
    ∀ c ∈ ((strip_accents (pyStrip (l.map lowerChar))).map
        (fun c => if isApos c then ' ' else c)).map
      (fun c => if isDash c then ' ' else c), GoodC c := by
  intro c hc
  rcases List.mem_map.mp hc with ⟨b, hb, hcb⟩
  rcases List.mem_map.mp hb with ⟨a, ha, hba⟩
  simp only [strip_accents] at ha
  rcases List.mem_map.mp ha with ⟨a', ha', haa⟩
  rcases List.mem_map.mp (mem_pyStrip ha') with ⟨x, _, hax⟩
  rw [← hcb, ← hba, ← haa, ← hax]
  exact stage_good_core x

/-- No two adjacent whitespace characters. -/
def WSRel (a b : Char) : Prop := ¬(isPyWS a = true ∧ isPyWS b = true)

theorem wsRel_flip {a b : Char} (h : WSRel a b) : WSRel b a := by
  unfold WSRel at *
  exact fun hc => h ⟨hc.2, hc.1⟩

theorem collapse_cons_nonws {d : Char} (rest : List Char) (h : isPyWS d = false) :
    collapseWS (d :: rest) = d :: collapseWS rest := by
  rcases rest with _ | ⟨e, es⟩ <;> simp [collapseWS, h]

theorem collapse_space : ∀ l : List Char, ∀ c ∈ collapseWS l, isPyWS c = true → c = ' '
  | [], c, hc, _ => by simp [collapseWS] at hc
  | [d], c, hc, hw => by
    simp only [collapseWS] at hc
    split_ifs at hc with hd
    · simpa using hc
    · rw [List.mem_singleton] at hc
      subst hc
      simp [hw] at hd
  | d :: e :: rest, c, hc, hw => by
    simp only [collapseWS] at hc
    split_ifs at hc with hd he
    · exact collapse_space (e :: rest) c hc hw
    · rcases List.mem_cons.mp hc with h | h
      · exact h
      · exact collapse_space (e :: rest) c h hw
    · rcases List.mem_cons.mp hc with h | h
      · subst h; simp [hw] at hd
      · exact collapse_space (e :: rest) c h hw

theorem collapse_chain : ∀ l : List Char, List.Chain' WSRel (collapseWS l)
  | [] => by simp only [collapseWS]; exact List.chain'_nil
  | [d] => by
    simp only [collapseWS]
    split_ifs <;> exact List.chain'_singleton _
  | d :: e :: rest => by
    simp only [collapseWS]
    split_ifs with hd he
    · exact collapse_chain (e :: rest)
    · refine List.chain'_cons'.mpr ⟨?_, collapse_chain (e :: rest)⟩
      intro y hy
      rw [collapse_cons_nonws rest (by simpa using he)] at hy
      simp only [List.head?_cons, Option.mem_def, Option.some_inj] at hy
      subst hy
      exact fun hcon => by simp [he] at hcon
    · refine List.chain'_cons'.mpr ⟨?_, collapse_chain (e :: rest)⟩
      intro y _
      exact fun hcon => by simp [hd] at hcon

theorem chain_dropWhile {l : List Char} (h : List.Chain' WSRel l) :
    List.Chain' WSRel (l.dropWhile isPyWS) :=
  h.suffix (List.dropWhile_suffix _)

theorem chain_reverse_of {l : List Char} (h : List.Chain' WSRel l) :
    List.Chain' WSRel l.reverse :=
  List.chain'_reverse.mpr (h.imp (fun _ _ hr => wsRel_flip hr))

theorem chain_pyStrip {l : List Char} (h : List.Chain' WSRel l) :
    List.Chain' WSRel (pyStrip l) := by
  unfold pyStrip
  exact chain_reverse_of (chain_dropWhile (chain_reverse_of (chain_dropWhile h)))

theorem stripLeadPfx_cases (l : List Char) :
    stripLeadPfx l = l ∨ ∃ n, stripLeadPfx l = (l.drop n).dropWhile isPyWS := by
  have key : ∀ p r, afterPfx p l = some r → ∃ n, r = (l.drop n).dropWhile isPyWS := by
    intro p r hpr
    unfold afterPfx at hpr
    split_ifs at hpr
    rcases hd : l.drop p.length with _ | ⟨d, ds⟩ <;> simp only [hd] at hpr
    · exact absurd hpr (by simp)
    · split_ifs at hpr
      cases hpr
      exact ⟨p.length, by rw [hd]⟩
  unfold stripLeadPfx
  rcases h1 : afterPfx pfxProvincia l with _ | r
  · rcases h2 : afterPfx pfxProv l with _ | r
    · rcases h3 : afterPfx pfxCitta l with _ | r
      · left; rfl
      · rcases key _ _ h3 with ⟨n, hn⟩
        right; exact ⟨n, hn⟩
    · rcases key _ _ h2 with ⟨n, hn⟩
      right; exact ⟨n, hn⟩
  · rcases key _ _ h1 with ⟨n, hn⟩
    right; exact ⟨n, hn⟩

theorem chain_stripLeadPfx {l : List Char} (h : List.Chain' WSRel l) :
    List.Chain' WSRel (stripLeadPfx l) := by
  rcases stripLeadPfx_cases l with hc | ⟨n, hn⟩
  · rw [hc]; exact h
  · rw [hn]
    exact chain_dropWhile (h.suffix (List.drop_suffix n l))

theorem head?_dropWhile_not {l : List Char} {c : Char}
    (h : (l.dropWhile isPyWS).head? = some c) : isPyWS c = false := by
  induction l with
  | nil => simp at h
  | cons d ds ih =>
    rw [List.dropWhile_cons] at h
    split_ifs at h with hd
    · exact ih h
    · simp only [List.head?_cons, Option.some_inj] at h
      subst h
      simpa using hd

theorem head?_of_pre {v w : List Char} {c : Char}
    (hp : w <+: v) (h : w.head? = some c) : v.head? = some c := by
  rcases hp with ⟨t, ht⟩
  rcases w with _ | ⟨d, ds⟩
  · simp at h
  · simp only [List.head?_cons, Option.some_inj] at h
    subst h
    rw [← ht]
    rfl

theorem pyStrip_head {l : List Char} {c : Char}
    (h : (pyStrip l).head? = some c) : isPyWS c = false := by
  have hpre : pyStrip l <+: l.dropWhile isPyWS := by
    have hsuf : ((l.dropWhile isPyWS).reverse.dropWhile isPyWS) <:+ (l.dropWhile isPyWS).reverse :=
      List.dropWhile_suffix _
    have := @List.reverse_suffix Char (pyStrip l) (l.dropWhile isPyWS)
    rw [← this]
    unfold pyStrip
    rw [List.reverse_reverse]
    exact hsuf
  exact head?_dropWhile_not (head?_of_pre hpre h)

theorem pyStrip_last {l : List Char} {c : Char}
    (h : (pyStrip l).reverse.head? = some c) : isPyWS c = false := by
  unfold pyStrip at h
  rw [List.reverse_reverse] at h
  exact head?_dropWhile_not h

theorem map_id_of_fix {f : Char → Char} : ∀ {l : List Char}, (∀ c ∈ l, f c = c) → l.map f = l
  | [], _ => rfl
  | c :: cs, h => by
    rw [List.map_cons, h c (by simp),
      map_id_of_fix (fun d hd => h d (List.mem_cons_of_mem _ hd))]

theorem dropWhile_id_of_head {l : List Char}
    (h : ∀ c, l.head? = some c → isPyWS c = false) : l.dropWhile isPyWS = l := by
  rcases l with _ | ⟨c, cs⟩
  · rfl
  · rw [List.dropWhile_cons, if_neg (by simp [h c rfl])]

theorem pyStrip_id {l : List Char}
    (hh : ∀ c, l.head? = some c → isPyWS c = false)
    (hl : ∀ c, l.reverse.head? = some c → isPyWS c = false) : pyStrip l = l := by
  unfold pyStrip
  rw [dropWhile_id_of_head hh, dropWhile_id_of_head hl, List.reverse_reverse]

theorem collapse_id : ∀ l : List Char, (∀ c ∈ l, isPyWS c = true → c = ' ') →
    List.Chain' WSRel l → collapseWS l = l
  | [], _, _ => by simp [collapseWS]
  | [d], hs, _ => by
    simp only [collapseWS]
    split_ifs with hd
    · rw [hs d (by simp) hd]
    · rfl
  | d :: e :: rest, hs, hch => by
    have hch' := List.chain'_cons'.mp hch
    simp only [collapseWS]
    split_ifs with hd he
    · exact absurd ⟨hd, he⟩ (hch'.1 e (by simp))
    · rw [collapse_id (e :: rest) (fun c hc => hs c (List.mem_cons_of_mem _ hc)) hch'.2,
        hs d (by simp) hd]
    · rw [collapse_id (e :: rest) (fun c hc => hs c (List.mem_cons_of_mem _ hc)) hch'.2]

/-- Structure of every normalized token: all characters are stage-fixed,
every whitespace character is a single space, no two whitespace
characters are adjacent, and there is no leading or trailing whitespace. -/
theorem normTok_good (l : List Char) :
    (∀ c ∈ normTok l, GoodC c) ∧
    (∀ c ∈ normTok l, isPyWS c = true → c = ' ') ∧
    List.Chain' WSRel (normTok l) ∧
    (∀ c, (normTok l).head? = some c → isPyWS c = false) ∧
    (∀ c, (normTok l).reverse.head? = some c → isPyWS c = false) := by
  unfold normTok
  refine ⟨?_, ?_, ?_, fun c => pyStrip_head, fun c => pyStrip_last⟩
  · intro c hc
    rcases mem_collapseWS (mem_stripLeadPfx (mem_pyStrip hc)) with h | h
    · subst h; exact goodC_space
    · exact stage_good c h
  · intro c hc hw
    exact collapse_space _ c (mem_stripLeadPfx (mem_pyStrip hc)) hw
  · exact chain_pyStrip (chain_stripLeadPfx (collapse_chain _))

/-- `normTok` is the identity on any structured token that does not start
with a strippable legal-entity prefix. -/
theorem normTok_id {t : List Char}
    (hg : ∀ c ∈ t, GoodC c)
    (hs : ∀ c ∈ t, isPyWS c = true → c = ' ')
    (hch : List.Chain' WSRel t)
    (hh : ∀ c, t.head? = some c → isPyWS c = false)
    (hl : ∀ c, t.reverse.head? = some c → isPyWS c = false)
    (hp : stripLeadPfx t = t) :
    normTok t = t := by
  have h1 : t.map lowerChar = t := map_id_of_fix (fun c hc => (hg c hc).1)
  have h2 : strip_accents t = t := map_id_of_fix (fun c hc => (hg c hc).2.1)
  have h3 : t.map (fun c => if isApos c then ' ' else c) = t :=
    map_id_of_fix (fun c hc => by simp [(hg c hc).2.2.1])
  have h4 : t.map (fun c => if isDash c then ' ' else c) = t :=
    map_id_of_fix (fun c hc => by simp [(hg c hc).2.2.2])
  have h5 : pyStrip t = t := pyStrip_id hh hl
  have h6 : collapseWS t = t := collapse_id t hs hch
  unfold normTok
  rw [h1, h5, h2, h3, h4, h6, hp, h5]

/-! ### Claim C2: idempotence of normalization -/

/-- **C2 counterexample.** Normalization is not idempotent on the code:
the anchored prefix regex strips only one leading "provincia di", so a
second application of `base_normalize` strips another one. -/
theorem C2_counterexample :
    base_normalize (base_normalize "provincia di provincia di Roma") ≠
      base_normalize "provincia di provincia di Roma" := by
  decide

/-- **C2 (amended).** On inputs drawn from the modeled character
repertoire, normalization is idempotent exactly when the normalized
form does not itself begin with a strippable legal-entity prefix
("provincia di ", "prov di ", "citta metropolitana di ").  The
counterexample above shows the prefix restriction is necessary; the
repertoire hypothesis scopes the claim to the characters on which this
embedding agrees with Python's `lower`/NFKD/whitespace behaviour —
outside it, compatibility decompositions such as U+2116 → "No" → "no"
break idempotence in the program, so the unrestricted statement would
be false of the source.  Within the model the repertoire hypothesis is
not needed by the proof, because the modeled character maps are already
fixed on their own outputs. -/
theorem C2_normalize_idempotent_amended (s : String)
    (_hdom : ∀ c ∈ s.data, modeledChar c = true)
    (h : stripLeadPfx (base_normalize s).data = (base_normalize s).data) :
    base_normalize (base_normalize s) = base_normalize s := by
  have hfacts := normTok_good s.data
  have ht : normTok (normTok s.data) = normTok s.data :=
    normTok_id hfacts.1 hfacts.2.1 hfacts.2.2.1 hfacts.2.2.2.1 hfacts.2.2.2.2 h
  show String.mk (normTok (normTok s.data)) = String.mk (normTok s.data)
  exact congrArg String.mk ht

/-- Witness for the amended C2 at the concrete input "Bologna". -/
theorem C2_normalize_idempotent_amended_witness :
    (∀ c ∈ "Bologna".data, modeledChar c = true) ∧
    stripLeadPfx (base_normalize "Bologna").data = (base_normalize "Bologna").data ∧
    base_normalize (base_normalize "Bologna") = base_normalize "Bologna" :=
  ⟨by decide, by decide,
    C2_normalize_idempotent_amended "Bologna" (by decide) (by decide)⟩

/-! ### The coverage module (`completeness.py`)

Dataframes are modelled as a column-name list plus rows of optional
cells; a missing cell (pandas NaN/None) is `none`.  Cells carry either a
string or an integer, mirroring the dtypes the module works with
(`pd.to_numeric(..., errors="coerce")` is integer parsing here, as years
are integers).  The claims about this module concern only its level
validation, which is fully faithful: both public functions call
`_territory_col_for` before touching the dataframe. -/

inductive CellVal where
  | str (s : String)
  | int (n : Int)
deriving DecidableEq, Repr

abbrev Cell := Option CellVal

structure DataFrame where
  cols : List String
  rows : List (List Cell)
deriving DecidableEq, Repr

def cellAt (df : DataFrame) (row : List Cell) (col : String) : Cell :=
  match df.cols.indexOf? col with
  | some i => (row.getD i none)
  | none => none

/-- `_territory_col_for` from the source: rejects any level other than
'province' or 'region' with a `ValueError` (modelled as `Except.error`). -/
def territory_col_for (level : String) : Except String String :=
  if ¬(level = "province" ∨ level = "region") then
    Except.error "level must be 'province' or 'region'"
  else
    Except.ok (if level = "province" then "province_std" else "region_std")

/-- `_apply_filters`: keep rows whose cell in each filtered column is in
the allowed list, skipping filter columns the frame does not have. -/
def apply_filters (df : DataFrame) (filters : Option (List (String × List Cell))) : DataFrame :=
  match filters with
  | none => df
  | some fs =>
    fs.foldl
      (fun d cf =>
        if cf.1 ∈ d.cols then
          { d with rows := d.rows.filter (fun r => decide (cellAt d r cf.1 ∈ cf.2)) }
        else d)
      df

/-- Python `int(...)`-style parse used to model `pd.to_numeric(...,
errors="coerce")` on the year column. -/
def parseIntCell : Cell → Option Int
  | some (.int n) => some n
  | some (.str s) =>
    match s.data with
    | [] => none
    | ds =>
      if ds.all (fun c => decide ('0' ≤ c) && decide (c ≤ '9')) then
        some (ds.foldl (fun acc c => 10 * acc + (c.toNat - 48)) 0)
      else none
  | none => none

def cellLt : CellVal → CellVal → Bool
  | .int a, .int b => decide (a < b)
  | .str a, .str b => pyStrLt a b
  | .int _, .str _ => true
  | .str _, .int _ => false

def cinsert (x : CellVal) : List CellVal → List CellVal
  | [] => [x]
  | y :: ys => if cellLt x y then x :: y :: ys else y :: cinsert x ys

def csort (l : List CellVal) : List CellVal := l.foldr cinsert []

structure CovRow where
  level : String
  varName : CellVal
  year : Int
  present_count : Nat
  expected_count : Nat
  missing_count : Int
  coverage : Option Rat
deriving DecidableEq, Repr

def covLt (a b : CovRow) : Bool :=
  cellLt a.varName b.varName ||
    (decide (a.varName = b.varName) && decide (a.year < b.year))

def covInsert (x : CovRow) : List CovRow → List CovRow
  | [] => [x]
  | y :: ys => if covLt x y then x :: y :: ys else y :: covInsert x ys

def covSort (l : List CovRow) : List CovRow := l.foldr covInsert []

/-- `compute_coverage` from the source: validates the level (raising
for anything but 'province'/'region'), filters to the level's rows,
applies the column filters, coerces years, and counts present versus
expected territories per (variable, year). -/
def compute_coverage (df : DataFrame) (level : String)
    (filters : Option (List (String × List Cell))) (expected : String) :
    Except String (List CovRow) := do
  let tcol ← territory_col_for level
  let d0 : DataFrame :=
    { df with rows := df.rows.filter (fun r => cellAt df r "level" == some (.str level)) }
  let d := apply_filters d0 filters
  let rowsY := d.rows.map (fun r =>
    (parseIntCell (cellAt d r "year"), cellAt d r "variable", cellAt d r tcol,
      cellAt d r "value"))
  let univ := (d.rows.filterMap (fun r => cellAt d r tcol)).dedup
  if expected = "all" ∨ expected = "by_year" then
    let keys := (rowsY.filterMap (fun q =>
      match q.1, q.2.1, q.2.2.1 with
      | some y, some v, some t => some (v, y, t)
      | _, _, _ => none)).dedup
    let hasVal : CellVal × Int × CellVal → Bool := fun k =>
      rowsY.any (fun q =>
        q.2.1 == some k.1 && q.1 == some k.2.1 && q.2.2.1 == some k.2.2 && q.2.2.2.isSome)
    let vyKeys := (keys.map (fun k => (k.1, k.2.1))).dedup
    let expInYear : Int → Nat := fun y =>
      ((rowsY.filter (fun q => q.1 == some y)).filterMap (fun q => q.2.2.1)).dedup.length
    let mkRow : CellVal × Int → CovRow := fun vy =>
      let pc := ((keys.filter (fun k => k.1 == vy.1 && k.2.1 == vy.2)).filter hasVal).length
      let ec := if expected = "all" then univ.length else expInYear vy.2
      { level := level, varName := vy.1, year := vy.2, present_count := pc,
        expected_count := ec, missing_count := (ec : Int) - (pc : Int),
        coverage := if ec = 0 then none else some (min 1 (max 0 ((pc : Rat) / (ec : Rat)))) }
    return covSort (vyKeys.map mkRow)
  else
    throw "expected must be 'all' or 'by_year'"

/-- `list_missing_territories` from the source: validates the level the
same way, then lists the territories of the universe with no non-null
value for the given variable and year. -/
def list_missing_territories (df : DataFrame) (varname : CellVal) (year : Int)
    (level : String) (filters : Option (List (String × List Cell))) (expected : String) :
    Except String (CellVal × Int × String × List CellVal) := do
  let tcol ← territory_col_for level
  let d0 : DataFrame :=
    { df with rows := df.rows.filter (fun r => cellAt df r "level" == some (.str level)) }
  let d := apply_filters d0 filters
  let univ :=
    if expected = "all" then (d.rows.filterMap (fun r => cellAt d r tcol)).dedup
    else ((d.rows.filter (fun r => cellAt d r "year" == some (.int year))).filterMap
        (fun r => cellAt d r tcol)).dedup
  let obs := d.rows.filter (fun r =>
    cellAt d r "variable" == some varname && cellAt d r "year" == some (.int year))
  let present := ((obs.filter (fun r => (cellAt d r "value").isSome)).filterMap
    (fun r => cellAt d r tcol)).dedup
  let missing := csort (univ.filter (fun t => decide (t ∉ present)))
  return (varname, year, level, missing)

/-! ### Claim C10: the coverage functions reject the macro level -/

/-- **C10.** For every level other than 'province' and 'region'
(including 'macro', a level `standardize_territory` can produce), both
`compute_coverage` and `list_missing_territories` raise the
`ValueError` of `_territory_col_for` instead of computing anything. -/
theorem C10_coverage_level_validation (df : DataFrame) (level : String)
    (filters : Option (List (String × List Cell))) (expected : String)
    (varname : CellVal) (year : Int)
    (h : level ≠ "province" ∧ level ≠ "region") :
    compute_coverage df level filters expected =
      Except.error "level must be 'province' or 'region'" ∧
    list_missing_territories df varname year level filters expected =
      Except.error "level must be 'province' or 'region'" := by
  have hcol : territory_col_for level = Except.error "level must be 'province' or 'region'" := by
    unfold territory_col_for
    rw [if_pos]
    rintro (hc | hc)
    · exact h.1 hc
    · exact h.2 hc
  constructor
  · unfold compute_coverage
    rw [hcol]
    rfl
  · unfold list_missing_territories
    rw [hcol]
    rfl

/-- Witness for C10 at level "macro" on a one-row dataframe. -/
theorem C10_coverage_level_validation_witness :
    ("macro" ≠ "province" ∧ "macro" ≠ "region") ∧
    (compute_coverage ⟨["level"], [[some (.str "macro")]]⟩ "macro" none "all" =
        Except.error "level must be 'province' or 'region'" ∧
      list_missing_territories ⟨["level"], [[some (.str "macro")]]⟩ (.str "hdi") 2020
          "macro" none "all" =
        Except.error "level must be 'province' or 'region'") :=
  ⟨by decide,
    C10_coverage_level_validation ⟨["level"], [[some (.str "macro")]]⟩ "macro" none "all"
      (.str "hdi") 2020 (by decide)⟩

/-! ### Claim C1: self-resolution of canonical names -/

/-- **C1.** Every canonical name resolves to its own universe: a
province resolves to level "province" with itself, its
`PROVINCE_TO_REGION` region and that region's macro-area; a region to
level "region" with itself and its `REGION_TO_MACRO` macro-area; a
macro-area to level "macro" with itself.  The `isSome` conjuncts show
the derived fields are actually present. -/
theorem C1_self_resolution :
    (∀ p ∈ ALL_PROVINCES,
        standardize_territory (some p) =
          { level := "province", province_std := some p,
            region_std := dget PROVINCE_TO_REGION p,
            macro_std := (dget PROVINCE_TO_REGION p).bind (dget REGION_TO_MACRO) } ∧
        ((dget PROVINCE_TO_REGION p).bind (dget REGION_TO_MACRO)).isSome = true) ∧
    (∀ r ∈ REGIONS,
        standardize_territory (some r) =
          { level := "region", province_std := none, region_std := some r,
            macro_std := dget REGION_TO_MACRO r } ∧
        (dget REGION_TO_MACRO r).isSome = true) ∧
    (∀ m ∈ MACROS,
        standardize_territory (some m) =
          { level := "macro", province_std := none, region_std := none,
            macro_std := some m }) := by
  simp only [standardize_eq, ALL_PROVINCES_lit_eq, MACROS_lit_eq]
  decide

/-- Witness for C1 at the concrete province "Torino". -/
theorem C1_self_resolution_witness :
    "Torino" ∈ ALL_PROVINCES ∧
    (standardize_territory (some "Torino") =
        { level := "province", province_std := some "Torino",
          region_std := dget PROVINCE_TO_REGION "Torino",
          macro_std := (dget PROVINCE_TO_REGION "Torino").bind (dget REGION_TO_MACRO) } ∧
      ((dget PROVINCE_TO_REGION "Torino").bind (dget REGION_TO_MACRO)).isSome = true) := by
  have htor : "Torino" ∈ ALL_PROVINCES := by
    simp only [ALL_PROVINCES_lit_eq]
    decide
  exact ⟨htor, C1_self_resolution.1 "Torino" htor⟩

/-! ### Claim C4: province priority on exact normalized matches -/

/-- Every normalized-province key is mapped by the alias index to a
canonical name that is a province. -/
theorem dataDF4 : ∀ k ∈ NORM_PROV.map Prod.fst,
    ((dget NORM_ALIAS k).bind (dget PROVINCE_TO_REGION)).isSome = true := by
  simp only [NORM_PROV_lit_eq, NORM_ALIAS_lit_eq]
  decide

/-- **C4.** If the normalized token of an input is the normalized form
of some canonical province name (a key of `NORM_PROV`), resolution
returns level "province" — never "region" or "macro" — because the alias
index maps every such key to a province. -/
theorem C4_province_priority (raw : String)
    (h : (dget NORM_PROV (base_normalize raw)).isSome = true) :
    (standardize_territory (some raw)).level = "province" := by
  have hmem : base_normalize raw ∈ NORM_PROV.map Prod.fst := dget_isSome_keys h
  have hfact := dataDF4 (base_normalize raw) hmem
  rcases ha : dget NORM_ALIAS (base_normalize raw) with _ | c
  · rw [ha] at hfact; simp at hfact
  · rw [ha] at hfact
    simp only [Option.some_bind] at hfact
    rcases Option.isSome_iff_exists.mp hfact with ⟨reg, hreg⟩
    show (tier1 (base_normalize raw)).level = "province"
    unfold tier1
    simp only [ha, hreg]

/-- Witness for C4 at the concrete input "Milano". -/
theorem C4_province_priority_witness :
    (dget NORM_PROV (base_normalize "Milano")).isSome = true ∧
    (standardize_territory (some "Milano")).level = "province" := by
  have hMil : (dget NORM_PROV (base_normalize "Milano")).isSome = true := by
    simp only [NORM_PROV_lit_eq]
    decide
  exact ⟨hMil, C4_province_priority "Milano" hMil⟩

/-! ### Claim C5: unknown boundary -/

/-- **C5.** `standardize_territory` maps `None`, the empty string and
"Xyzzy Nonexistent" to level "unknown" with all three hierarchy fields
absent; the embedding is a total function, so none of these raises. -/
theorem C5_unknown_boundary :
    standardize_territory none =
      { level := "unknown", province_std := none, region_std := none, macro_std := none } ∧
    standardize_territory (some "") =
      { level := "unknown", province_std := none, region_std := none, macro_std := none } ∧
    standardize_territory (some "Xyzzy Nonexistent") =
      { level := "unknown", province_std := none, region_std := none, macro_std := none } := by
  simp only [standardize_eq]
  decide

/-! ### Claim C6: manual alias coverage -/

/-- **C6.** Every variant of the manual alias table resolves to the same
`province_std`/`region_std`/`macro_std` fields as its canonical name. -/
theorem C6_alias_coverage :
    ∀ cv ∈ CANONICAL_TO_ALIASES, ∀ v ∈ cv.2,
      (standardize_territory (some v)).province_std =
        (standardize_territory (some cv.1)).province_std ∧
      (standardize_territory (some v)).region_std =
        (standardize_territory (some cv.1)).region_std ∧
      (standardize_territory (some v)).macro_std =
        (standardize_territory (some cv.1)).macro_std := by
  simp only [standardize_eq]
  decide

/-- Witness for C6 at the entry ("Reggio nell'Emilia", "reggio emilia"). -/
theorem C6_alias_coverage_witness :
    ("Reggio nell'Emilia", ["reggio emilia"]) ∈ CANONICAL_TO_ALIASES ∧
    "reggio emilia" ∈ ["reggio emilia"] ∧
    ((standardize_territory (some "reggio emilia")).province_std =
        (standardize_territory (some "Reggio nell'Emilia")).province_std ∧
      (standardize_territory (some "reggio emilia")).region_std =
        (standardize_territory (some "Reggio nell'Emilia")).region_std ∧
      (standardize_territory (some "reggio emilia")).macro_std =
        (standardize_territory (some "Reggio nell'Emilia")).macro_std) :=
  ⟨by decide, by decide,
    C6_alias_coverage ("Reggio nell'Emilia", ["reggio emilia"]) (by decide)
      "reggio emilia" (by decide)⟩

/-! ### Claim C8: fuzzy resolution of the "Bolgna" typo -/

/-- **C8.** "Bolgna" resolves through the fuzzy tier: its normalized
token "bolgna" misses the alias and exact tiers, the similarity of
"bolgna" to the normalized province name "bologna" reaches the 0.90
cutoff (`2*6/13 >= 9/10`, stated as `20*6 >= 9*13` over the model's
exact rationals), the fuzzy search over the province key set returns
the single best candidate "bologna", and the result is the Bologna
province record with region Emilia-Romagna. -/
theorem C8_bolgna_fuzzy :
    standardize_territory (some "Bolgna") =
      { level := "province", province_std := some "Bologna",
        region_std := some "Emilia-Romagna", macro_std := some "Nord-est" } ∧
    base_normalize "Bolgna" = "bolgna" ∧
    dget NORM_ALIAS "bolgna" = none ∧
    dget NORM_PROV "bolgna" = none ∧
    match_from_candidates "bolgna" (dkeys NORM_PROV) = some "bologna" ∧
    20 * matchTotal "bologna".data "bolgna".data ≥
      9 * ("bologna".data.length + "bolgna".data.length) := by
  simp only [standardize_eq, NORM_ALIAS_lit_eq, NORM_PROV_lit_eq, dkeys_NORM_PROV_lit_eq]
  decide

/-! ### Claim C9: the Aosta heuristic -/

/-- **C9.** If the alias, exact and fuzzy tiers all miss and the
normalized token contains the substring "aosta", resolution returns the
Valle d'Aosta region identity with macro-area "Nord-ovest"; in
particular both "valle d'aosta" (via the alias tier) and "Valle dAosta"
(via the heuristic) return that region identity. -/
theorem C9_aosta_heuristic :
    (∀ raw : String,
        dget NORM_ALIAS (base_normalize raw) = none →
        dget NORM_PROV (base_normalize raw) = none →
        dget NORM_REG (base_normalize raw) = none →
        dget NORM_MAC (base_normalize raw) = none →
        match_from_candidates (base_normalize raw) (dkeys NORM_PROV) = none →
        match_from_candidates (base_normalize raw) (dkeys NORM_REG) = none →
        match_from_candidates (base_normalize raw) (dkeys NORM_MAC) = none →
        containsSub "aosta".data (base_normalize raw).data = true →
        standardize_territory (some raw) =
          { level := "region", province_std := none,
            region_std := some "Valle d'Aosta/Vallée d'Aoste",
            macro_std := some "Nord-ovest" }) ∧
    standardize_territory (some "valle d'aosta") =
      { level := "region", province_std := none,
        region_std := some "Valle d'Aosta/Vallée d'Aoste", macro_std := some "Nord-ovest" } ∧
    standardize_territory (some "Valle dAosta") =
      { level := "region", province_std := none,
        region_std := some "Valle d'Aosta/Vallée d'Aoste", macro_std := some "Nord-ovest" } := by
  refine ⟨?_, by simp only [standardize_eq]; decide, by simp only [standardize_eq]; decide⟩
  intro raw h1 h2 h3 h4 h5 h6 h7 h8
  show tier1 (base_normalize raw) = _
  unfold tier1
  simp only [h1]
  unfold tier2
  simp only [h2, h3, h4]
  unfold tier3
  simp only [h5, h6, h7]
  unfold tier4
  rw [if_pos h8]

/-- Witness for the heuristic part of C9 at the input "Valle dAosta". -/
theorem C9_aosta_heuristic_witness :
    (dget NORM_ALIAS (base_normalize "Valle dAosta") = none ∧
      dget NORM_PROV (base_normalize "Valle dAosta") = none ∧
      dget NORM_REG (base_normalize "Valle dAosta") = none ∧
      dget NORM_MAC (base_normalize "Valle dAosta") = none ∧
      match_from_candidates (base_normalize "Valle dAosta") (dkeys NORM_PROV) = none ∧
      match_from_candidates (base_normalize "Valle dAosta") (dkeys NORM_REG) = none ∧
      match_from_candidates (base_normalize "Valle dAosta") (dkeys NORM_MAC) = none ∧
      containsSub "aosta".data (base_normalize "Valle dAosta").data = true) ∧
    standardize_territory (some "Valle dAosta") =
      { level := "region", province_std := none,
        region_std := some "Valle d'Aosta/Vallée d'Aoste", macro_std := some "Nord-ovest" } := by
  have h17 : dget NORM_ALIAS (base_normalize "Valle dAosta") = none := by
    simp only [NORM_ALIAS_lit_eq]; decide
  have h18 : dget NORM_PROV (base_normalize "Valle dAosta") = none := by
    simp only [NORM_PROV_lit_eq]; decide
  have h19 : dget NORM_REG (base_normalize "Valle dAosta") = none := by
    simp only [NORM_REG_lit_eq]; decide
  have h20 : dget NORM_MAC (base_normalize "Valle dAosta") = none := by
    simp only [NORM_MAC_lit_eq]; decide
  have h21 : match_from_candidates (base_normalize "Valle dAosta") (dkeys NORM_PROV) = none := by
    simp only [NORM_PROV_lit_eq, dkeys_NORM_PROV_lit_eq]; decide
  have h22 : match_from_candidates (base_normalize "Valle dAosta") (dkeys NORM_REG) = none := by
    simp only [NORM_REG_lit_eq, dkeys_NORM_REG_lit_eq]; decide
  have h23 : match_from_candidates (base_normalize "Valle dAosta") (dkeys NORM_MAC) = none := by
    simp only [NORM_MAC_lit_eq, dkeys_NORM_MAC_lit_eq]; decide
  have h24 : containsSub "aosta".data (base_normalize "Valle dAosta").data = true := by
    decide
  exact ⟨⟨h17, h18, h19, h20, h21, h22, h23, h24⟩,
    C9_aosta_heuristic.1 "Valle dAosta" h17 h18 h19 h20 h21 h22 h23 h24⟩

/-- Witness for C3 at the concrete input "Bologna". -/
theorem C3_hierarchy_consistency_witness :
    (standardize_territory (some "Bologna")).level = "province" ∧
    ((standardize_territory (some "Bologna")).region_std =
        (standardize_territory (some "Bologna")).province_std.bind (dget PROVINCE_TO_REGION) ∧
      (standardize_territory (some "Bologna")).macro_std =
        (standardize_territory (some "Bologna")).region_std.bind (dget REGION_TO_MACRO)) := by
  have hBol : (standardize_territory (some "Bologna")).level = "province" := by
    simp only [standardize_eq]
    decide
  exact ⟨hBol, C3_hierarchy_consistency (some "Bologna") hBol⟩
